import Mathlib

/-!
Shallow embedding of the quantitative-analysis core of the aios.fund
repository: the technical-indicator module (src/lib/indicators.ts) and the
quantitative-analysis half of src/components/StockCard.tsx.

JavaScript numbers are modelled as real numbers, with Lean's total division
(x / 0 = 0).  The places where the source can actually divide zero by zero
and surface a NaN in a result field are additionally modelled by an explicit
JavaScript-number type JsNum that tracks NaN and the signed infinities.
-/

noncomputable section

namespace AiosFund

/-- JavaScript floating-point values as far as the embedding needs them: a
finite real number, NaN, or a signed infinity. -/
inductive JsNum where
  | num : ℝ → JsNum
  | nan : JsNum
  | posInf : JsNum
  | negInf : JsNum

/-- JavaScript division of two finite numbers: x / 0 is NaN when x = 0 and a
signed infinity otherwise; other quotients are finite. -/
def jsDiv (a b : ℝ) : JsNum :=
  if b = 0 then
    if a = 0 then JsNum.nan else if 0 < a then JsNum.posInf else JsNum.negInf
  else JsNum.num (a / b)

/-- JavaScript addition on JsNum: NaN propagates and opposite infinities
give NaN. -/
def jsAdd : JsNum → JsNum → JsNum
  | JsNum.nan, _ => JsNum.nan
  | _, JsNum.nan => JsNum.nan
  | JsNum.posInf, JsNum.negInf => JsNum.nan
  | JsNum.negInf, JsNum.posInf => JsNum.nan
  | JsNum.posInf, _ => JsNum.posInf
  | _, JsNum.posInf => JsNum.posInf
  | JsNum.negInf, _ => JsNum.negInf
  | _, JsNum.negInf => JsNum.negInf
  | JsNum.num a, JsNum.num b => JsNum.num (a + b)

/-- Math.pow(x, 3) on JsNum: NaN propagates, infinities keep their sign. -/
def jsCube : JsNum → JsNum
  | JsNum.num a => JsNum.num (a ^ 3)
  | JsNum.nan => JsNum.nan
  | JsNum.posInf => JsNum.posInf
  | JsNum.negInf => JsNum.negInf

/-- Multiplication of a JsNum by a finite constant. -/
def jsScale (a : ℝ) : JsNum → JsNum
  | JsNum.num b => JsNum.num (a * b)
  | JsNum.nan => JsNum.nan
  | JsNum.posInf => if 0 < a then JsNum.posInf else if a < 0 then JsNum.negInf else JsNum.nan
  | JsNum.negInf => if 0 < a then JsNum.negInf else if a < 0 then JsNum.posInf else JsNum.nan

/-- Math.max on JsNum: NaN propagates, otherwise the usual order with the
infinities absorbing or disappearing. -/
def jsMax : JsNum → JsNum → JsNum
  | JsNum.nan, _ => JsNum.nan
  | _, JsNum.nan => JsNum.nan
  | JsNum.posInf, _ => JsNum.posInf
  | _, JsNum.posInf => JsNum.posInf
  | JsNum.negInf, b => b
  | a, JsNum.negInf => a
  | JsNum.num a, JsNum.num b => JsNum.num (max a b)

/-- Math.min on JsNum: NaN propagates, otherwise the usual order with the
infinities absorbing or disappearing. -/
def jsMin : JsNum → JsNum → JsNum
  | JsNum.nan, _ => JsNum.nan
  | _, JsNum.nan => JsNum.nan
  | JsNum.negInf, _ => JsNum.negInf
  | _, JsNum.negInf => JsNum.negInf
  | JsNum.posInf, b => b
  | a, JsNum.posInf => a
  | JsNum.num a, JsNum.num b => JsNum.num (min a b)

/-- The ascending numeric sort pattern sort((a, b) => a - b) used on copied
arrays throughout the source. -/
def jsSortAsc (l : List ℝ) : List ℝ :=
  List.insertionSort (fun a b => a ≤ b) l

/-- The descending numeric sort pattern sort((a, b) => b - a). -/
def jsSortDesc (l : List ℝ) : List ℝ :=
  List.insertionSort (fun a b => b ≤ a) l

/-- The pattern arr[arr.length - 1] || 0: the last element, with both the
undefined of an empty array and a zero last element collapsing to zero. -/
def lastOrZero (l : List ℝ) : ℝ := l.getLastD 0

/-- Math.max over a spread array; callers in the source never pass an empty
array, whose JavaScript value would be negative infinity. -/
def jsMaxList (l : List ℝ) : ℝ := l.foldl max (l.headD 0)

/-- Math.min over a spread array; callers never pass an empty array. -/
def jsMinList (l : List ℝ) : ℝ := l.foldl min (l.headD 0)

/-- PricePoint from src/lib/indicators.ts. -/
structure PricePoint where
  price : ℝ
  date : String
  high : Option ℝ := none
  low : Option ℝ := none
  volume : Option ℝ := none

/-- The macd record of TechnicalIndicators. -/
structure MACDResult where
  value : ℝ
  signal : ℝ
  histogram : ℝ

/-- The bollinger record of TechnicalIndicators. -/
structure BollingerBands where
  upper : ℝ
  middle : ℝ
  lower : ℝ

/-- The stochastic record of TechnicalIndicators. -/
structure StochasticResult where
  k : ℝ
  d : ℝ

/-- The trend union type of TechnicalIndicators. -/
inductive Trend where
  | bullish
  | bearish
  | neutral
deriving DecidableEq

/-- The recommendation union type of TechnicalIndicators. -/
inductive Recommendation where
  | buy
  | sell
  | hold
deriving DecidableEq

/-- TechnicalIndicators from src/lib/indicators.ts. -/
structure TechnicalIndicators where
  rsi : ℝ
  macd : MACDResult
  sma20 : ℝ
  sma50 : ℝ
  sma200 : ℝ
  bollinger : BollingerBands
  stochastic : StochasticResult
  adx : ℝ
  trend : Trend
  recommendation : Recommendation
  confidence : ℝ

/-- The consecutive differences prices[i] - prices[i - 1] built at the top of
calculateRSI. -/
def jsChanges : List ℝ → List ℝ
  | a :: b :: rest => (b - a) :: jsChanges (b :: rest)
  | _ => []

/-- Seeding loop of calculateRSI: a positive change accumulates into gains,
otherwise its absolute value accumulates into losses. -/
def rsiSeed (gl : ℝ × ℝ) (c : ℝ) : ℝ × ℝ :=
  if 0 < c then (gl.1 + c, gl.2) else (gl.1, gl.2 + |c|)

/-- Wilder smoothing step of calculateRSI on the (avgGain, avgLoss) pair. -/
def rsiStep (period : ℕ) (gl : ℝ × ℝ) (c : ℝ) : ℝ × ℝ :=
  if 0 < c then
    ((gl.1 * ((period : ℝ) - 1) + c) / (period : ℝ), gl.2 * ((period : ℝ) - 1) / (period : ℝ))
  else
    (gl.1 * ((period : ℝ) - 1) / (period : ℝ), (gl.2 * ((period : ℝ) - 1) + |c|) / (period : ℝ))

/-- calculateRSI from src/lib/indicators.ts. -/
def calculateRSI (prices : List ℝ) (period : ℕ) : ℝ :=
  if prices.length < period + 1 then 50
  else
    let changes := jsChanges prices
    let seed := (changes.take period).foldl rsiSeed (0, 0)
    let start : ℝ × ℝ := (seed.1 / (period : ℝ), seed.2 / (period : ℝ))
    let final := (changes.drop period).foldl (rsiStep period) start
    if final.2 = 0 then 100
    else 100 - 100 / (1 + final.1 / final.2)

/-- calculateSMA from src/lib/indicators.ts: mean of the trailing period
prices, falling back to the last available price for a short history. -/
def calculateSMA (prices : List ℝ) (period : ℕ) : ℝ :=
  if prices.length < period then lastOrZero prices
  else (prices.drop (prices.length - period)).sum / (period : ℝ)

/-- calculateEMA from src/lib/indicators.ts. -/
def calculateEMA (prices : List ℝ) (period : ℕ) : ℝ :=
  if prices.length < period then lastOrZero prices
  else
    let multiplier : ℝ := 2 / ((period : ℝ) + 1)
    let start := (prices.take period).sum / (period : ℝ)
    (prices.drop period).foldl (fun ema p => (p - ema) * multiplier + ema) start

/-- calculateMACD from src/lib/indicators.ts; the signal line is the EMA over
the single-element array holding the current MACD value. -/
def calculateMACD (prices : List ℝ) : MACDResult :=
  let ema12 := calculateEMA prices 12
  let ema26 := calculateEMA prices 26
  let macd := ema12 - ema26
  let signal := calculateEMA [macd] 9
  { value := macd, signal := signal, histogram := macd - signal }

/-- calculateBollingerBands from src/lib/indicators.ts. -/
def calculateBollingerBands (prices : List ℝ) (period : ℕ) (stdDevMult : ℝ) : BollingerBands :=
  if prices.length < period then
    let lastPrice := lastOrZero prices
    { upper := lastPrice, middle := lastPrice, lower := lastPrice }
  else
    let sma := calculateSMA prices period
    let slice := prices.drop (prices.length - period)
    let variance := (slice.map (fun price => (price - sma) ^ 2)).sum / (period : ℝ)
    let standardDeviation := Real.sqrt variance
    { upper := sma + standardDeviation * stdDevMult
      middle := sma
      lower := sma - standardDeviation * stdDevMult }

/-- One iteration of the %D loop of calculateStochastic: the %K value over the
trailing kPeriod window ending at index i, skipped when that window is flat. -/
def stochasticKAt (highs lows closes : List ℝ) (kPeriod : ℕ) (i : ℕ) : Option ℝ :=
  let periodHighs := (highs.take (i + 1)).drop (i + 1 - kPeriod)
  let periodLows := (lows.take (i + 1)).drop (i + 1 - kPeriod)
  let periodCloses := (closes.take (i + 1)).drop (i + 1 - kPeriod)
  let hh := jsMaxList periodHighs
  let ll := jsMinList periodLows
  if hh = ll then none
  else some ((lastOrZero periodCloses - ll) / (hh - ll) * 100)

/-- calculateStochastic from src/lib/indicators.ts. -/
def calculateStochastic (highs lows closes : List ℝ) (kPeriod dPeriod : ℕ) : StochasticResult :=
  if closes.length < kPeriod then { k := 50, d := 50 }
  else
    let highSlice := highs.drop (highs.length - kPeriod)
    let lowSlice := lows.drop (lows.length - kPeriod)
    let highestHigh := jsMaxList highSlice
    let lowestLow := jsMinList lowSlice
    let currentClose := lastOrZero closes
    if highestHigh = lowestLow then { k := 50, d := 50 }
    else
      let k := (currentClose - lowestLow) / (highestHigh - lowestLow) * 100
      let idxs := (List.range' (closes.length - dPeriod) dPeriod).filter (fun i => kPeriod - 1 ≤ i)
      let kValues := idxs.filterMap (stochasticKAt highs lows closes kPeriod)
      let d := if 0 < kValues.length then kValues.sum / (kValues.length : ℝ) else k
      { k := k, d := d }

/-- One loop iteration of calculateADX: true range and directional movements
at index i (the source reads highs[i], lows[i], closes[i - 1]). -/
structure ADXRow where
  tr : ℝ
  plusDM : ℝ
  minusDM : ℝ

/-- The body of the calculateADX accumulation loop at index i. -/
def adxRow (highs lows closes : List ℝ) (i : ℕ) : ADXRow :=
  let tr1 := highs.getD i 0 - lows.getD i 0
  let tr2 := |highs.getD i 0 - closes.getD (i - 1) 0|
  let tr3 := |lows.getD i 0 - closes.getD (i - 1) 0|
  let plusDM := if highs.getD (i - 1) 0 < highs.getD i 0
    then highs.getD i 0 - highs.getD (i - 1) 0 else 0
  let minusDM := if lows.getD i 0 < lows.getD (i - 1) 0
    then lows.getD (i - 1) 0 - lows.getD i 0 else 0
  { tr := max (max tr1 tr2) tr3
    plusDM := if minusDM < plusDM then plusDM else 0
    minusDM := if plusDM < minusDM then minusDM else 0 }

/-- calculateADX from src/lib/indicators.ts.  The isNaN(dx) test of the
source fires exactly when both the numerator and the denominator of dx are
zero, which is the conjunction tested here. -/
def calculateADX (highs lows closes : List ℝ) (period : ℕ) : ℝ :=
  if highs.length < period * 2 ∨ lows.length < period * 2 ∨ closes.length < period * 2 then 25
  else
    let rows := (List.range' 1 (closes.length - 1)).map (adxRow highs lows closes)
    if rows.length < period then 25
    else
      let atr := ((rows.map (fun r => r.tr)).drop (rows.length - period)).sum / (period : ℝ)
      let plusDI := ((rows.map (fun r => r.plusDM)).drop (rows.length - period)).sum / (period : ℝ)
      let minusDI := ((rows.map (fun r => r.minusDM)).drop (rows.length - period)).sum / (period : ℝ)
      if atr = 0 then 25
      else
        let dx := |plusDI - minusDI| / (plusDI + minusDI) * 100
        if plusDI + minusDI = 0 ∧ plusDI - minusDI = 0 then 25
        else min (max dx 0) 100

/-- The JavaScript coalescing d.high || d.price (zero and undefined both fall
back to the price). -/
def pickHigh (d : PricePoint) : ℝ :=
  match d.high with
  | some h => if h = 0 then d.price else h
  | none => d.price

/-- The JavaScript coalescing d.low || d.price. -/
def pickLow (d : PricePoint) : ℝ :=
  match d.low with
  | some h => if h = 0 then d.price else h
  | none => d.price

/-- calculateIndicators from src/lib/indicators.ts. -/
def calculateIndicators (historicalData : List PricePoint) : TechnicalIndicators :=
  if historicalData.length < 50 then
    let lastPrice := match historicalData.getLast? with
      | some d => d.price
      | none => 0
    { rsi := 50
      macd := { value := 0, signal := 0, histogram := 0 }
      sma20 := lastPrice
      sma50 := lastPrice
      sma200 := lastPrice
      bollinger := { upper := lastPrice, middle := lastPrice, lower := lastPrice }
      stochastic := { k := 50, d := 50 }
      adx := 25
      trend := Trend.neutral
      recommendation := Recommendation.hold
      confidence := 0 }
  else
    let prices := historicalData.map (fun d => d.price)
    let currentPrice := lastOrZero prices
    let rsi := calculateRSI prices 14
    let macd := calculateMACD prices
    let sma20 := calculateSMA prices 20
    let sma50 := calculateSMA prices 50
    let sma200 := calculateSMA prices 200
    let bollinger := calculateBollingerBands prices 20 2
    let highs := if (historicalData.head?.bind PricePoint.high).isSome
      then historicalData.map pickHigh
      else prices.map (fun p => p * 1.02)
    let lows := if (historicalData.head?.bind PricePoint.low).isSome
      then historicalData.map pickLow
      else prices.map (fun p => p * 0.98)
    let stochastic := calculateStochastic highs lows prices 14 3
    let adx := calculateADX highs lows prices 14
    let trend := if sma50 < sma20 ∧ sma200 < sma50 ∧ sma20 < currentPrice then Trend.bullish
      else if sma20 < sma50 ∧ sma50 < sma200 ∧ currentPrice < sma20 then Trend.bearish
      else Trend.neutral
    let sig1 : ℕ × ℕ := if rsi < 30 then (1, 0) else if 70 < rsi then (0, 1) else (0, 0)
    let sig2 : ℕ × ℕ := if 0 < macd.histogram ∧ macd.signal < macd.value then (1, 0)
      else if macd.histogram < 0 ∧ macd.value < macd.signal then (0, 1) else (0, 0)
    let sig3 : ℕ × ℕ := if trend = Trend.bullish then (1, 0)
      else if trend = Trend.bearish then (0, 1) else (0, 0)
    let sig4 : ℕ × ℕ := if sma20 < currentPrice ∧ sma50 < sma20 then (1, 0)
      else if currentPrice < sma20 ∧ sma20 < sma50 then (0, 1) else (0, 0)
    let sig5 : ℕ × ℕ := if currentPrice < bollinger.lower then (1, 0)
      else if bollinger.upper < currentPrice then (0, 1) else (0, 0)
    let sig6 : ℕ × ℕ := if stochastic.k < 20 ∧ stochastic.d < 20 then (1, 0)
      else if 80 < stochastic.k ∧ 80 < stochastic.d then (0, 1) else (0, 0)
    let sig7 : ℕ × ℕ := if 25 < adx then
        (if trend = Trend.bullish then ((1 : ℕ), (0 : ℕ))
         else if trend = Trend.bearish then (0, 1) else (0, 0))
      else (0, 0)
    let buyScore := sig1.1 + sig2.1 + sig3.1 + sig4.1 + sig5.1 + sig6.1 + sig7.1
    let sellScore := sig1.2 + sig2.2 + sig3.2 + sig4.2 + sig5.2 + sig6.2 + sig7.2
    let maxSignals : ℝ := 7
    let recConf : Recommendation × ℝ :=
      if sellScore < buyScore ∧ 2 ≤ buyScore then
        (Recommendation.buy, min ((buyScore : ℝ) / maxSignals * 100) 95)
      else if buyScore < sellScore ∧ 2 ≤ sellScore then
        (Recommendation.sell, min ((sellScore : ℝ) / maxSignals * 100) 95)
      else
        (Recommendation.hold, max (50 - |(buyScore : ℝ) - (sellScore : ℝ)| * 10) 20)
    { rsi := rsi
      macd := macd
      sma20 := sma20
      sma50 := sma50
      sma200 := sma200
      bollinger := bollinger
      stochastic := stochastic
      adx := adx
      trend := trend
      recommendation := recConf.1
      confidence := recConf.2 }

/-! Definitions of the quantitative-analysis module appended to
src/components/StockCard.tsx. -/

/-- PriceData from the quantitative-analysis module; the open field of the
source is renamed openPrice because open is a Lean keyword. -/
structure PriceData where
  date : String
  price : ℝ
  high : Option ℝ := none
  low : Option ℝ := none
  volume : Option ℝ := none
  openPrice : Option ℝ := none
  close : Option ℝ := none

instance : Inhabited PriceData := ⟨{ date := "", price := 0 }⟩

/-- FinancialMetrics from the quantitative-analysis module; every field is
optional in the source interface. -/
structure FinancialMetrics where
  peRatio : Option ℝ := none
  eps : Option ℝ := none
  priceToBook : Option ℝ := none
  priceToSales : Option ℝ := none
  evToEbitda : Option ℝ := none
  profitMargin : Option ℝ := none
  operatingMargin : Option ℝ := none
  roa : Option ℝ := none
  roe : Option ℝ := none
  roic : Option ℝ := none
  revenueGrowth : Option ℝ := none
  earningsGrowth : Option ℝ := none
  revenueGrowthYoY : Option ℝ := none
  earningsGrowthYoY : Option ℝ := none
  debtToEquity : Option ℝ := none
  currentRatio : Option ℝ := none
  quickRatio : Option ℝ := none
  debtToAssets : Option ℝ := none
  marketCap : Option ℝ := none
  enterpriseValue : Option ℝ := none
  sharesOutstanding : Option ℝ := none
  dividendYield : Option ℝ := none
  totalSupply : Option ℝ := none
  circulatingSupply : Option ℝ := none
  maxSupply : Option ℝ := none
  networkHashRate : Option ℝ := none
  activeAddresses : Option ℝ := none
  transactionVolume : Option ℝ := none

/-- The result record of calculateDescriptiveStats. -/
structure DescriptiveStats where
  mean : ℝ
  median : ℝ
  mode : ℝ
  stdDev : ℝ
  variance : ℝ
  min : ℝ
  max : ℝ
  range : ℝ

/-- Math.round(x * 100) / 100, the 2-decimal rounding used for the mode
frequency table; Mathlib round, like Math.round, takes halves upward. -/
def roundTo2 (x : ℝ) : ℝ := ((round (x * 100) : ℤ) : ℝ) / 100

/-- Distinct values of a list in first-occurrence order, the enumeration
order of the frequency object keys built by the mode computation.  (For
integer-valued keys JavaScript would enumerate those first; no claim depends
on the tie-breaking order.) -/
def firstOccurrences : List ℝ → List ℝ
  | [] => []
  | a :: rest => a :: (firstOccurrences rest).filter (fun b => b ≠ a)

/-- The mode computation of calculateDescriptiveStats: round every value to
2 decimals, count frequencies, and reduce the keys keeping the current key
only when its count is strictly larger (so later keys win ties). -/
def jsMode (data : List ℝ) : ℝ :=
  let rounded := data.map roundTo2
  match firstOccurrences rounded with
  | [] => 0
  | k :: ks => ks.foldl (fun a b => if rounded.count b < rounded.count a then a else b) k

/-- calculateDescriptiveStats from the quantitative-analysis module. -/
def calculateDescriptiveStats (data : List ℝ) : DescriptiveStats :=
  if data.length = 0 then
    { mean := 0, median := 0, mode := 0, stdDev := 0, variance := 0,
      min := 0, max := 0, range := 0 }
  else
    let sorted := jsSortAsc data
    let mean := data.sum / (data.length : ℝ)
    let median := if sorted.length % 2 = 0 then
        (sorted.getD (sorted.length / 2 - 1) 0 + sorted.getD (sorted.length / 2) 0) / 2
      else sorted.getD (sorted.length / 2) 0
    let mode := jsMode data
    let variance := (data.map (fun val => (val - mean) ^ 2)).sum / (data.length : ℝ)
    let stdDev := Real.sqrt variance
    let minV := sorted.getD 0 0
    let maxV := sorted.getD (sorted.length - 1) 0
    { mean := mean, median := median, mode := mode, stdDev := stdDev,
      variance := variance, min := minV, max := maxV, range := maxV - minV }

/-- calculateSkewness from the quantitative-analysis module, with real-number
division (so a zero stdDev silently yields 0 here; the JavaScript NaN
behaviour at that point is modelled by calculateSkewnessJS below). -/
def calculateSkewness (data : List ℝ) : ℝ :=
  if data.length < 3 then 0
  else
    let stats := calculateDescriptiveStats data
    let n : ℝ := data.length
    let s := (data.map (fun val => ((val - stats.mean) / stats.stdDev) ^ 3)).sum
    n / ((n - 1) * (n - 2)) * s

/-- calculateSkewness under JavaScript division semantics: the quotient
(val - mean) / stdDev is NaN when both are zero, and NaN propagates through
Math.pow, the running sum, and the final scaling.  The source guards
data.length < 3 but has no stdDev = 0 guard. -/
def calculateSkewnessJS (data : List ℝ) : JsNum :=
  if data.length < 3 then JsNum.num 0
  else
    let stats := calculateDescriptiveStats data
    let n : ℝ := data.length
    let s := data.foldl
      (fun acc val => jsAdd acc (jsCube (jsDiv (val - stats.mean) stats.stdDev)))
      (JsNum.num 0)
    jsScale (n / ((n - 1) * (n - 2))) s

/-- calculateKurtosis from the quantitative-analysis module. -/
def calculateKurtosis (data : List ℝ) : ℝ :=
  if data.length < 4 then 3
  else
    let stats := calculateDescriptiveStats data
    let n : ℝ := data.length
    let s := (data.map (fun val => ((val - stats.mean) / stats.stdDev) ^ 4)).sum
    n * (n + 1) / ((n - 1) * (n - 2) * (n - 3)) * s
      - 3 * (n - 1) * (n - 1) / ((n - 2) * (n - 3))

/-- calculateCorrelation from the quantitative-analysis module. -/
def calculateCorrelation (x y : List ℝ) : ℝ :=
  if x.length ≠ y.length ∨ x.length = 0 then 0
  else
    let n : ℝ := x.length
    let meanX := x.sum / n
    let meanY := y.sum / n
    let numerator := ((x.zip y).map (fun p => (p.1 - meanX) * (p.2 - meanY))).sum
    let sumSqX := (x.map (fun v => (v - meanX) ^ 2)).sum
    let sumSqY := (y.map (fun v => (v - meanY) ^ 2)).sum
    let denominator := Real.sqrt (sumSqX * sumSqY)
    if denominator = 0 then 0 else numerator / denominator

/-- The result record of calculateLinearRegression. -/
structure LinearRegressionResult where
  slope : ℝ
  intercept : ℝ
  rSquared : ℝ
  pValue : ℝ

/-- calculateLinearRegression from the quantitative-analysis module. -/
def calculateLinearRegression (x y : List ℝ) : LinearRegressionResult :=
  if x.length ≠ y.length ∨ x.length < 2 then
    { slope := 0, intercept := 0, rSquared := 0, pValue := 1 }
  else
    let n : ℝ := x.length
    let meanX := x.sum / n
    let meanY := y.sum / n
    let sumXY := ((x.zip y).map (fun p => (p.1 - meanX) * (p.2 - meanY))).sum
    let sumX2 := (x.map (fun v => (v - meanX) ^ 2)).sum
    let sumY2 := (y.map (fun v => (v - meanY) ^ 2)).sum
    let slope := if sumX2 = 0 then 0 else sumXY / sumX2
    let intercept := meanY - slope * meanX
    let correlation := calculateCorrelation x y
    let rSquared := correlation * correlation
    let stdError := Real.sqrt ((sumY2 - slope * sumXY) / (n - 2))
    let tStat := slope / (stdError / Real.sqrt sumX2)
    let pValue := min 1 (max 0 (1 - |tStat| / 10))
    { slope := slope, intercept := intercept, rSquared := rSquared, pValue := pValue }

/-- calculateReturns from the quantitative-analysis module: simple per-step
returns, skipping any step whose prior price is exactly zero. -/
def calculateReturns : List ℝ → List ℝ
  | a :: b :: rest =>
      if a = 0 then calculateReturns (b :: rest)
      else (b - a) / a :: calculateReturns (b :: rest)
  | _ => []

/-- calculateVolatility from the quantitative-analysis module. -/
def calculateVolatility (returns : List ℝ) (annualized : Bool) : ℝ :=
  if returns.length < 2 then 0
  else
    let mean := returns.sum / (returns.length : ℝ)
    let variance := (returns.map (fun r => (r - mean) ^ 2)).sum / (returns.length : ℝ)
    let stdDev := Real.sqrt variance
    if annualized then stdDev * Real.sqrt 252 else stdDev

/-- The result record of calculateMaxDrawdown. -/
structure DrawdownResult where
  maxDrawdown : ℝ
  maxDrawdownDuration : ℝ
  currentDrawdown : ℝ
  averageDrawdown : ℝ

/-- The mutable locals of the calculateMaxDrawdown loop. -/
structure DrawdownState where
  maxDrawdown : ℝ
  maxDrawdownDuration : ℤ
  peak : ℝ
  peakIndex : ℕ
  currentDrawdown : ℝ
  drawdowns : List ℝ
  currentDrawdownStart : ℤ

/-- One iteration of the calculateMaxDrawdown loop at position ip.1 with
price ip.2; lastIndex is prices.length - 1.  The quotient (peak - price) /
peak uses real-number division, so a zero peak yields 0 here where
JavaScript yields NaN (price = 0) or a signed infinity; drawdownStepJS
below models the JavaScript behaviour of that quotient. -/
def drawdownStep (lastIndex : ℕ) (s : DrawdownState) (ip : ℕ × ℝ) : DrawdownState :=
  if s.peak < ip.2 then
    { s with
      peak := ip.2
      peakIndex := ip.1
      maxDrawdownDuration := if 0 ≤ s.currentDrawdownStart then
          max s.maxDrawdownDuration ((ip.1 : ℤ) - s.currentDrawdownStart)
        else s.maxDrawdownDuration
      currentDrawdownStart := if 0 ≤ s.currentDrawdownStart then -1 else s.currentDrawdownStart }
  else
    let drawdown := (s.peak - ip.2) / s.peak
    let start := if s.currentDrawdownStart < 0 then (s.peakIndex : ℤ) else s.currentDrawdownStart
    { s with
      drawdowns := s.drawdowns ++ [drawdown]
      maxDrawdown := max s.maxDrawdown drawdown
      currentDrawdownStart := start
      currentDrawdown := if ip.1 = lastIndex then drawdown else s.currentDrawdown
      maxDrawdownDuration := if ip.1 = lastIndex then
          max s.maxDrawdownDuration ((ip.1 : ℤ) - start)
        else s.maxDrawdownDuration }

/-- calculateMaxDrawdown from the quantitative-analysis module. -/
def calculateMaxDrawdown (prices : List ℝ) : DrawdownResult :=
  if prices.length < 2 then
    { maxDrawdown := 0, maxDrawdownDuration := 0, currentDrawdown := 0, averageDrawdown := 0 }
  else
    let start : DrawdownState :=
      { maxDrawdown := 0, maxDrawdownDuration := 0, peak := prices.headD 0, peakIndex := 0,
        currentDrawdown := 0, drawdowns := [], currentDrawdownStart := -1 }
    let s := (List.enumFrom 1 (prices.drop 1)).foldl (drawdownStep (prices.length - 1)) start
    let averageDrawdown := if 0 < s.drawdowns.length
      then s.drawdowns.sum / (s.drawdowns.length : ℝ) else 0
    { maxDrawdown := s.maxDrawdown
      maxDrawdownDuration := (s.maxDrawdownDuration : ℝ)
      currentDrawdown := s.currentDrawdown
      averageDrawdown := averageDrawdown }

/-- The mutable locals of the calculateMaxDrawdown loop under JavaScript
number semantics: the running peak is always one of the (finite) input
prices, while the accumulated drawdown quotients can be NaN or infinite
when the peak is zero.  The index bookkeeping is that of DrawdownState. -/
structure DrawdownStateJS where
  maxDrawdown : JsNum
  maxDrawdownDuration : ℤ
  peak : ℝ
  peakIndex : ℕ
  currentDrawdown : JsNum
  drawdowns : List JsNum
  currentDrawdownStart : ℤ

/-- One iteration of the calculateMaxDrawdown loop with the JavaScript
semantics of the quotient (peak - price) / peak and of
Math.max(maxDrawdown, drawdown), which propagates NaN. -/
def drawdownStepJS (lastIndex : ℕ) (s : DrawdownStateJS) (ip : ℕ × ℝ) : DrawdownStateJS :=
  if s.peak < ip.2 then
    { s with
      peak := ip.2
      peakIndex := ip.1
      maxDrawdownDuration := if 0 ≤ s.currentDrawdownStart then
          max s.maxDrawdownDuration ((ip.1 : ℤ) - s.currentDrawdownStart)
        else s.maxDrawdownDuration
      currentDrawdownStart := if 0 ≤ s.currentDrawdownStart then -1 else s.currentDrawdownStart }
  else
    let drawdown := jsDiv (s.peak - ip.2) s.peak
    let start := if s.currentDrawdownStart < 0 then (s.peakIndex : ℤ) else s.currentDrawdownStart
    { s with
      drawdowns := s.drawdowns ++ [drawdown]
      maxDrawdown := jsMax s.maxDrawdown drawdown
      currentDrawdownStart := start
      currentDrawdown := if ip.1 = lastIndex then drawdown else s.currentDrawdown
      maxDrawdownDuration := if ip.1 = lastIndex then
          max s.maxDrawdownDuration ((ip.1 : ℤ) - start)
        else s.maxDrawdownDuration }

/-- The maxDrawdown and currentDrawdown results of calculateMaxDrawdown
under JavaScript number semantics (the pair of the two fields the risk
score and the trading signals read). -/
def calculateMaxDrawdownJS (prices : List ℝ) : JsNum × JsNum :=
  if prices.length < 2 then (JsNum.num 0, JsNum.num 0)
  else
    let start : DrawdownStateJS :=
      { maxDrawdown := JsNum.num 0, maxDrawdownDuration := 0, peak := prices.headD 0,
        peakIndex := 0, currentDrawdown := JsNum.num 0, drawdowns := [],
        currentDrawdownStart := -1 }
    let s := (List.enumFrom 1 (prices.drop 1)).foldl (drawdownStepJS (prices.length - 1)) start
    (s.maxDrawdown, s.currentDrawdown)

/-- The endpoint of the JavaScript slice(0, stop): a negative stop counts
from the end of the array. -/
def jsSliceEndIndex (len : ℕ) (stop : ℤ) : ℕ :=
  if stop < 0 then ((len : ℤ) + stop).toNat else min stop.toNat len

/-- calculateVaR from the quantitative-analysis module: sort ascending, take
the element at floor((1 - confidence) * n), absolute value; an out-of-range
(or zero) element collapses to zero through the || 0 of the source. -/
def calculateVaR (returns : List ℝ) (confidence : ℝ) : ℝ :=
  if returns.length = 0 then 0
  else
    let sorted := jsSortAsc returns
    let index : ℤ := ⌊(1 - confidence) * (returns.length : ℝ)⌋
    |if 0 ≤ index ∧ index < (sorted.length : ℤ) then sorted.getD index.toNat 0 else 0|

/-- calculateCVaR from the quantitative-analysis module: absolute value of
the mean of the sorted returns up to and including the VaR index. -/
def calculateCVaR (returns : List ℝ) (confidence : ℝ) : ℝ :=
  if returns.length = 0 then 0
  else
    let sorted := jsSortAsc returns
    let varIndex : ℤ := ⌊(1 - confidence) * (returns.length : ℝ)⌋
    let tailReturns := sorted.take (jsSliceEndIndex sorted.length (varIndex + 1))
    if 0 < tailReturns.length then |tailReturns.sum / (tailReturns.length : ℝ)| else 0

/-- calculateSharpeRatio from the quantitative-analysis module. -/
def calculateSharpeRatio (returns : List ℝ) (riskFreeRate : ℝ) : ℝ :=
  if returns.length < 2 then 0
  else
    let meanReturn := returns.sum / (returns.length : ℝ)
    let volatility := calculateVolatility returns true
    if volatility = 0 then 0
    else (meanReturn * 252 - riskFreeRate) / volatility

/-- calculateSortinoRatio from the quantitative-analysis module. -/
def calculateSortinoRatio (returns : List ℝ) (riskFreeRate : ℝ) : ℝ :=
  if returns.length < 2 then 0
  else
    let meanReturn := returns.sum / (returns.length : ℝ)
    let downsideReturns := returns.filter (fun r => r < 0)
    if downsideReturns.length = 0 then 100
    else
      let downsideVariance := (downsideReturns.map (fun r => r * r)).sum
        / (downsideReturns.length : ℝ)
      let downsideDeviation := Real.sqrt downsideVariance * Real.sqrt 252
      if downsideDeviation = 0 then 100
      else (meanReturn * 252 - riskFreeRate) / downsideDeviation

/-- calculateCalmarRatio from the quantitative-analysis module. -/
def calculateCalmarRatio (returns : List ℝ) (maxDrawdown : ℝ) : ℝ :=
  if maxDrawdown = 0 then 0
  else returns.sum / (returns.length : ℝ) * 252 / maxDrawdown

/-- calculateAutocorrelation from the quantitative-analysis module. -/
def calculateAutocorrelation (data : List ℝ) (maxLag : ℕ) : List ℝ :=
  let mean := data.sum / (data.length : ℝ)
  let variance := (data.map (fun val => (val - mean) ^ 2)).sum / (data.length : ℝ)
  if variance = 0 then List.replicate maxLag 0
  else
    ((List.range' 1 maxLag).filter (fun lag => lag < data.length)).map (fun lag =>
      let covariance := ((List.range' lag (data.length - lag)).map (fun i =>
        (data.getD i 0 - mean) * (data.getD (i - lag) 0 - mean))).sum
      covariance / (((data.length : ℝ) - (lag : ℝ)) * variance))

/-- The result record of identifySupportResistance. -/
structure SupportResistance where
  supportLevels : List ℝ
  resistanceLevels : List ℝ

/-- identifySupportResistance from the quantitative-analysis module. -/
def identifySupportResistance (prices : List ℝ) : SupportResistance :=
  if prices.length < 20 then { supportLevels := [], resistanceLevels := [] }
  else
    let window := prices.length / 10
    let idxs := List.range' window (prices.length - 2 * window)
    let supports := idxs.filterMap (fun i =>
      let windowPrices := (prices.take (i + window + 1)).drop (i - window)
      let currentPrice := prices.getD i 0
      if currentPrice = jsMinList windowPrices then some currentPrice else none)
    let resistances := idxs.filterMap (fun i =>
      let windowPrices := (prices.take (i + window + 1)).drop (i - window)
      let currentPrice := prices.getD i 0
      if currentPrice = jsMaxList windowPrices then some currentPrice else none)
    { supportLevels := (jsSortAsc (firstOccurrences supports)).take 5
      resistanceLevels := (jsSortDesc (firstOccurrences resistances)).take 5 }

/-- The assetType union of the analysis entry point. -/
inductive AssetType where
  | stock
  | crypto
deriving DecidableEq

/-- The volumeTrend union of VolumeAnalysis. -/
inductive VolumeTrendKind where
  | increasing
  | decreasing
  | stable
deriving DecidableEq

/-- The distributionType union of StatisticalAnalysis. -/
inductive DistributionType where
  | normal
  | skewed
  | fatTailed
  | unknown
deriving DecidableEq

/-- The timeHorizon union of TradingSignals. -/
inductive TimeHorizon where
  | short
  | medium
  | long
deriving DecidableEq

/-- The normalityTest record of StatisticalAnalysis. -/
structure NormalityTest where
  shapiroWilk : Option ℝ := none
  isNormal : Prop

/-- StatisticalAnalysis from the quantitative-analysis module. -/
structure StatisticalAnalysis where
  mean : ℝ
  median : ℝ
  mode : ℝ
  stdDev : ℝ
  variance : ℝ
  skewness : ℝ
  kurtosis : ℝ
  min : ℝ
  max : ℝ
  range : ℝ
  priceVolumeCorrelation : ℝ
  priceChangeCorrelation : ℝ
  linearRegression : LinearRegressionResult
  autocorrelation : List ℝ
  trendStrength : ℝ
  seasonality : ℝ
  volatility : ℝ
  annualizedVolatility : ℝ
  realizedVolatility : ℝ
  distributionType : DistributionType
  normalityTest : NormalityTest

/-- RiskMetrics from the quantitative-analysis module. -/
structure RiskMetrics where
  volatility : ℝ
  annualizedVolatility : ℝ
  beta : Option ℝ := none
  maxDrawdown : ℝ
  maxDrawdownDuration : ℝ
  currentDrawdown : ℝ
  averageDrawdown : ℝ
  var95 : ℝ
  var99 : ℝ
  cvar95 : ℝ
  cvar99 : ℝ
  sharpeRatio : ℝ
  sortinoRatio : ℝ
  calmarRatio : ℝ
  informationRatio : Option ℝ := none
  downsideDeviation : ℝ
  semiVariance : ℝ
  lowerPartialMoment : ℝ
  tailRatio : ℝ
  tailRisk : ℝ
  overallRiskScore : ℝ

/-- TradingSignals from the quantitative-analysis module; the three
classification booleans are carried as propositions. -/
structure TradingSignals where
  signalStrength : ℝ
  buySignal : Prop
  sellSignal : Prop
  holdSignal : Prop
  technicalSignal : ℝ
  fundamentalSignal : ℝ
  sentimentSignal : ℝ
  riskSignal : ℝ
  entryPrice : Option ℝ := none
  stopLoss : Option ℝ := none
  takeProfit : Option ℝ := none
  confidence : ℝ
  reasons : List String
  warnings : List String
  timeHorizon : TimeHorizon

/-- The priceAnalysis record of QuantitativeAnalysis. -/
structure PriceAnalysis where
  currentPrice : ℝ
  priceChange24h : ℝ
  priceChangePercent24h : ℝ
  priceChange7d : ℝ
  priceChange30d : ℝ
  priceChange90d : ℝ
  priceChange1y : ℝ
  allTimeHigh : Option ℝ := none
  allTimeLow : Option ℝ := none
  distanceFromATH : Option ℝ := none
  distanceFromATL : Option ℝ := none

/-- The volumeAnalysis record of QuantitativeAnalysis. -/
structure VolumeAnalysis where
  averageVolume : ℝ
  volumeRatio : ℝ
  volumeTrend : VolumeTrendKind
  volumePriceDivergence : ℝ

/-- One trend line of the patterns record; the end field of the source is
renamed endValue because end is a Lean keyword. -/
structure TrendLine where
  start : ℝ
  endValue : ℝ
  slope : ℝ

/-- The patterns record of QuantitativeAnalysis. -/
structure Patterns where
  supportLevels : List ℝ
  resistanceLevels : List ℝ
  trendLines : List TrendLine
  chartPatterns : List String

/-- QuantitativeAnalysis, the root aggregate built by the entry point. -/
structure QuantitativeAnalysis where
  symbol : String
  name : String
  assetType : AssetType
  timestamp : String
  financialMetrics : FinancialMetrics
  statisticalAnalysis : StatisticalAnalysis
  riskMetrics : RiskMetrics
  tradingSignals : TradingSignals
  priceAnalysis : PriceAnalysis
  volumeAnalysis : VolumeAnalysis
  patterns : Patterns

/-- The fundamental sub-signal of performQuantitativeAnalysis.  Each JavaScript
conjunct metric && metric < t is false when the field is undefined or zero. -/
def fundamentalSignalOf : Option FinancialMetrics → ℝ
  | none => 0
  | some m =>
      (match m.peRatio with
       | some v => if v ≠ 0 ∧ v < 15 then 20 else if v ≠ 0 ∧ 30 < v then -20 else 0
       | none => 0) +
      (match m.profitMargin with
       | some v => if v ≠ 0 ∧ 0.15 < v then 20 else if v ≠ 0 ∧ v < 0 then -20 else 0
       | none => 0) +
      (match m.revenueGrowth with
       | some v => if v ≠ 0 ∧ 0.1 < v then 20 else if v ≠ 0 ∧ v < 0 then -20 else 0
       | none => 0) +
      (match m.debtToEquity with
       | some v => if v ≠ 0 ∧ v < 1 then 10 else if v ≠ 0 ∧ 2 < v then -10 else 0
       | none => 0)

/-- The body of performQuantitativeAnalysis after its length guard; now is
the clock reading new Date().toISOString() of the source, supplied as an
input because the embedding is pure.  The riskScore clamp
Math.min(100, Math.max(0, ...)) is modelled with real min and max, which
cannot propagate the NaN that the JavaScript functions do propagate when
maxDrawdown is NaN (a zero running peak against a zero price);
overallRiskScoreJS below models the overallRiskScore field under the
JavaScript semantics. -/
def quantAnalysisBody (now : String) (priceData : List PriceData)
    (financialMetrics : Option FinancialMetrics) (assetType : AssetType) :
    QuantitativeAnalysis :=
  let prices := priceData.map (fun d => d.price)
  let volumes := (priceData.map (fun d => d.volume.getD 0)).filter (fun v => 0 < v)
  let returns := calculateReturns prices
  let currentPrice := lastOrZero prices
  let stats := calculateDescriptiveStats prices
  let skewness := calculateSkewness returns
  let kurtosis := calculateKurtosis returns
  let priceVolumeCorrelation := if 0 < volumes.length ∧ prices.length = volumes.length
    then calculateCorrelation prices volumes else 0
  let priceChanges := returns.map (fun r => r)
  let priceChangeCorrelation := if 1 < priceChanges.length
    then calculateCorrelation priceChanges.dropLast (priceChanges.drop 1) else 0
  let timeIndices := (List.range prices.length).map (fun i => (i : ℝ))
  let linearRegression := calculateLinearRegression timeIndices prices
  let volatility := calculateVolatility returns false
  let annualizedVolatility := calculateVolatility returns true
  let drawdowns := calculateMaxDrawdown prices
  let var95 := calculateVaR returns 0.95
  let var99 := calculateVaR returns 0.99
  let cvar95 := calculateCVaR returns 0.95
  let cvar99 := calculateCVaR returns 0.99
  let sharpeRatio := calculateSharpeRatio returns 0.02
  let sortinoRatio := calculateSortinoRatio returns 0.02
  let calmarRatio := calculateCalmarRatio returns drawdowns.maxDrawdown
  let downsideReturns := returns.filter (fun r => r < 0)
  let downsideVariance := if 0 < downsideReturns.length
    then (downsideReturns.map (fun r => r * r)).sum / (downsideReturns.length : ℝ) else 0
  let downsideDeviation := Real.sqrt downsideVariance
  let semiVariance := downsideVariance
  let riskScore := min 100 (max 0
    (drawdowns.maxDrawdown * 50 + annualizedVolatility * 20 + var95 * 30))
  let priceChange24h := if 2 ≤ priceData.length
    then currentPrice - (priceData.getD (priceData.length - 2) default).price else 0
  let priceChangePercent24h := if 2 ≤ priceData.length ∧
      (priceData.getD (priceData.length - 2) default).price ≠ 0
    then priceChange24h / (priceData.getD (priceData.length - 2) default).price * 100 else 0
  let priceChange7d := if 7 ≤ priceData.length
    then currentPrice - (priceData.getD (priceData.length - 7) default).price else 0
  let priceChange30d := if 30 ≤ priceData.length
    then currentPrice - (priceData.getD (priceData.length - 30) default).price else 0
  let priceChange90d := if 90 ≤ priceData.length
    then currentPrice - (priceData.getD (priceData.length - 90) default).price else 0
  let priceChange1y := if 252 ≤ priceData.length
    then currentPrice - (priceData.getD (priceData.length - 252) default).price else 0
  let allTimeHigh := jsMaxList prices
  let allTimeLow := jsMinList prices
  let averageVolume := if 0 < volumes.length
    then volumes.sum / (volumes.length : ℝ) else 0
  let currentVolume := lastOrZero volumes
  let volumeRatio := if 0 < averageVolume then currentVolume / averageVolume else 1
  let volumeTrend := if 3 ≤ volumes.length then
      (if volumes.getD (volumes.length - 3) 0 < volumes.getD (volumes.length - 1) 0
       then VolumeTrendKind.increasing else VolumeTrendKind.decreasing)
    else VolumeTrendKind.stable
  let supportResistance := identifySupportResistance prices
  let autocorrelation := calculateAutocorrelation returns 10
  let technicalSignal :=
    (if 0 < linearRegression.slope then (30 : ℝ) else -30) +
    (if 1 < sharpeRatio then (20 : ℝ) else if sharpeRatio < 0 then -20 else 0) +
    (if drawdowns.currentDrawdown < 0.1 then (20 : ℝ)
     else if 0.3 < drawdowns.currentDrawdown then -20 else 0) +
    (if 1.2 < volumeRatio then (20 : ℝ) else if volumeRatio < 0.8 then -20 else 0) +
    (if 5 < priceChangePercent24h then (10 : ℝ) else if priceChangePercent24h < -5 then -10 else 0)
  let fundamentalSignal := fundamentalSignalOf financialMetrics
  let signalStrength := max (-100) (min 100 (technicalSignal + fundamentalSignal))
  { symbol := ""
    name := ""
    assetType := assetType
    timestamp := now
    financialMetrics := financialMetrics.getD {}
    statisticalAnalysis :=
      { mean := stats.mean
        median := stats.median
        mode := stats.mode
        stdDev := stats.stdDev
        variance := stats.variance
        skewness := skewness
        kurtosis := kurtosis
        min := stats.min
        max := stats.max
        range := stats.range
        priceVolumeCorrelation := priceVolumeCorrelation
        priceChangeCorrelation := priceChangeCorrelation
        linearRegression := linearRegression
        autocorrelation := autocorrelation
        trendStrength := |linearRegression.slope| / stats.mean
        seasonality := 0
        volatility := volatility
        annualizedVolatility := annualizedVolatility
        realizedVolatility := annualizedVolatility
        distributionType := if |skewness| < 0.5 ∧ |kurtosis - 3| < 1 then DistributionType.normal
          else if 1 < |skewness| then DistributionType.skewed
          else if 2 < |kurtosis - 3| then DistributionType.fatTailed
          else DistributionType.unknown
        normalityTest := { isNormal := |skewness| < 0.5 ∧ |kurtosis - 3| < 1 } }
    riskMetrics :=
      { volatility := volatility
        annualizedVolatility := annualizedVolatility
        maxDrawdown := drawdowns.maxDrawdown
        maxDrawdownDuration := drawdowns.maxDrawdownDuration
        currentDrawdown := drawdowns.currentDrawdown
        averageDrawdown := drawdowns.averageDrawdown
        var95 := var95
        var99 := var99
        cvar95 := cvar95
        cvar99 := cvar99
        sharpeRatio := sharpeRatio
        sortinoRatio := sortinoRatio
        calmarRatio := calmarRatio
        downsideDeviation := downsideDeviation
        semiVariance := semiVariance
        lowerPartialMoment := semiVariance
        tailRatio := var99 / var95
        tailRisk := cvar99
        overallRiskScore := riskScore }
    tradingSignals :=
      { signalStrength := signalStrength
        buySignal := 30 < signalStrength
        sellSignal := signalStrength < -30
        holdSignal := -30 ≤ signalStrength ∧ signalStrength ≤ 30
        technicalSignal := technicalSignal
        fundamentalSignal := fundamentalSignal
        sentimentSignal := 0
        riskSignal := -riskScore
        confidence := min 95 (max 20 |signalStrength|)
        reasons := []
        warnings := if 70 < riskScore then ["High risk detected"] else []
        timeHorizon := TimeHorizon.medium }
    priceAnalysis :=
      { currentPrice := currentPrice
        priceChange24h := priceChange24h
        priceChangePercent24h := priceChangePercent24h
        priceChange7d := priceChange7d
        priceChange30d := priceChange30d
        priceChange90d := priceChange90d
        priceChange1y := priceChange1y
        allTimeHigh := some allTimeHigh
        allTimeLow := some allTimeLow
        distanceFromATH := some ((currentPrice - allTimeHigh) / allTimeHigh * 100)
        distanceFromATL := some ((currentPrice - allTimeLow) / allTimeLow * 100) }
    volumeAnalysis :=
      { averageVolume := averageVolume
        volumeRatio := volumeRatio
        volumeTrend := volumeTrend
        volumePriceDivergence := priceVolumeCorrelation }
    patterns :=
      { supportLevels := supportResistance.supportLevels
        resistanceLevels := supportResistance.resistanceLevels
        trendLines := []
        chartPatterns := [] } }

/-- performQuantitativeAnalysis from the quantitative-analysis module: the
entry point throws for fewer than two price samples and otherwise builds the
full analysis record. -/
def performQuantitativeAnalysis (now : String) (priceData : List PriceData)
    (financialMetrics : Option FinancialMetrics) (assetType : AssetType) :
    Except String QuantitativeAnalysis :=
  if priceData.length < 2 then
    Except.error "Insufficient data for quantitative analysis"
  else
    Except.ok (quantAnalysisBody now priceData financialMetrics assetType)

/-- The tailRatio field computation var99 / var95 of performQuantitativeAnalysis
under JavaScript division semantics (the source has no zero-denominator
guard on this public result field). -/
def tailRatioJS (priceData : List PriceData) : JsNum :=
  let prices := priceData.map (fun d => d.price)
  let returns := calculateReturns prices
  jsDiv (calculateVaR returns 0.99) (calculateVaR returns 0.95)

/-- The overallRiskScore field computation
Math.min(100, Math.max(0, maxDrawdown * 50 + annualizedVolatility * 20 +
var95 * 30)) of performQuantitativeAnalysis under JavaScript number
semantics.  On finite guard-accepted input the only subterm that can become
NaN or infinite is maxDrawdown (its quotient divides by the running peak):
calculateReturns skips zero prior prices, so annualizedVolatility and var95
are always finite and are computed in the real model; scaling by 50
commutes with the source's maxDrawdown * 50. -/
def overallRiskScoreJS (priceData : List PriceData) : JsNum :=
  let prices := priceData.map (fun d => d.price)
  let returns := calculateReturns prices
  let annualizedVolatility := calculateVolatility returns true
  let var95 := calculateVaR returns 0.95
  jsMin (JsNum.num 100) (jsMax (JsNum.num 0)
    (jsAdd (jsAdd (jsScale 50 (calculateMaxDrawdownJS prices).1)
      (JsNum.num (annualizedVolatility * 20))) (JsNum.num (var95 * 30))))

/-- Pointwise scaling of a price point by a constant: price, high and low
are multiplied, date and volume are untouched. -/
def scalePoint (k : ℝ) (d : PricePoint) : PricePoint :=
  { price := k * d.price
    date := d.date
    high := d.high.map (fun h => k * h)
    low := d.low.map (fun h => k * h)
    volume := d.volume }

/-! Helper lemmas shared by several claim proofs. -/

theorem sorted_le_replicate (n : ℕ) (a : ℝ) :
    List.Sorted (fun x y : ℝ => x ≤ y) (List.replicate n a) := by
  induction n with
  | zero => simp
  | succ m ih =>
      rw [List.replicate_succ]
      exact List.sorted_cons.mpr ⟨fun b hb => le_of_eq (List.eq_of_mem_replicate hb).symm, ih⟩

theorem ema_singleton (x : ℝ) (period : ℕ) (h : 1 < period) : calculateEMA [x] period = x := by
  have hl : ([x] : List ℝ).length < period := by simpa using h
  rw [calculateEMA, if_pos hl]
  simp [lastOrZero]

/-- C9: for every price history the MACD signal line equals the MACD value
and the histogram is identically zero, because the signal is the EMA of the
single-element list [macd] with period 9, which takes the short-history
fallback and returns its only element. -/
theorem macd_histogram_always_zero (prices : List ℝ) :
    (calculateMACD prices).signal = (calculateMACD prices).value ∧
    (calculateMACD prices).histogram = 0 := by
  have h : ∀ x : ℝ, calculateEMA [x] 9 = x := fun x => ema_singleton x 9 (by norm_num)
  constructor
  · simp [calculateMACD, h]
  · simp [calculateMACD, h]

theorem signal_partition_aux (x : ℝ) :
    (30 < x ∧ ¬x < -30 ∧ ¬(-30 ≤ x ∧ x ≤ 30)) ∨
    (¬30 < x ∧ x < -30 ∧ ¬(-30 ≤ x ∧ x ≤ 30)) ∨
    (¬30 < x ∧ ¬x < -30 ∧ (-30 ≤ x ∧ x ≤ 30)) := by
  by_cases h1 : 30 < x
  · exact Or.inl ⟨h1, by linarith, fun h => by linarith [h.2]⟩
  · by_cases h2 : x < -30
    · exact Or.inr (Or.inl ⟨h1, h2, fun h => by linarith [h.1]⟩)
    · exact Or.inr (Or.inr ⟨h1, h2, by constructor <;> linarith⟩)

/-- C5: the three classification booleans of the trading signals hold exactly
at the stated strength ranges, and exactly one of buy, sell, hold is true. -/
theorem trading_signal_classification (now : String) (pd : List PriceData)
    (fm : Option FinancialMetrics) (aty : AssetType) :
    ((quantAnalysisBody now pd fm aty).tradingSignals.buySignal ↔
      30 < (quantAnalysisBody now pd fm aty).tradingSignals.signalStrength) ∧
    ((quantAnalysisBody now pd fm aty).tradingSignals.sellSignal ↔
      (quantAnalysisBody now pd fm aty).tradingSignals.signalStrength < -30) ∧
    ((quantAnalysisBody now pd fm aty).tradingSignals.holdSignal ↔
      (-30 ≤ (quantAnalysisBody now pd fm aty).tradingSignals.signalStrength ∧
        (quantAnalysisBody now pd fm aty).tradingSignals.signalStrength ≤ 30)) ∧
    (((quantAnalysisBody now pd fm aty).tradingSignals.buySignal ∧
        ¬(quantAnalysisBody now pd fm aty).tradingSignals.sellSignal ∧
        ¬(quantAnalysisBody now pd fm aty).tradingSignals.holdSignal) ∨
      (¬(quantAnalysisBody now pd fm aty).tradingSignals.buySignal ∧
        (quantAnalysisBody now pd fm aty).tradingSignals.sellSignal ∧
        ¬(quantAnalysisBody now pd fm aty).tradingSignals.holdSignal) ∨
      (¬(quantAnalysisBody now pd fm aty).tradingSignals.buySignal ∧
        ¬(quantAnalysisBody now pd fm aty).tradingSignals.sellSignal ∧
        (quantAnalysisBody now pd fm aty).tradingSignals.holdSignal)) := by
  have hb : (quantAnalysisBody now pd fm aty).tradingSignals.buySignal ↔
      30 < (quantAnalysisBody now pd fm aty).tradingSignals.signalStrength := Iff.rfl
  have hs : (quantAnalysisBody now pd fm aty).tradingSignals.sellSignal ↔
      (quantAnalysisBody now pd fm aty).tradingSignals.signalStrength < -30 := Iff.rfl
  have hh : (quantAnalysisBody now pd fm aty).tradingSignals.holdSignal ↔
      (-30 ≤ (quantAnalysisBody now pd fm aty).tradingSignals.signalStrength ∧
        (quantAnalysisBody now pd fm aty).tradingSignals.signalStrength ≤ 30) := Iff.rfl
  refine ⟨hb, hs, hh, ?_⟩
  rcases signal_partition_aux (quantAnalysisBody now pd fm aty).tradingSignals.signalStrength with
    h | h | h
  · exact Or.inl ⟨hb.mpr h.1, fun hc => h.2.1 (hs.mp hc), fun hc => h.2.2 (hh.mp hc)⟩
  · exact Or.inr (Or.inl ⟨fun hc => h.1 (hb.mp hc), hs.mpr h.2.1, fun hc => h.2.2 (hh.mp hc)⟩)
  · exact Or.inr (Or.inr ⟨fun hc => h.1 (hb.mp hc), fun hc => h.2.1 (hs.mp hc), hh.mpr h.2.2⟩)

/-- C3: performQuantitativeAnalysis fails with the insufficient-data error
exactly on histories of fewer than 2 samples, and returns the fully built
analysis record on every history of length at least 2, for any optional
financial metrics. -/
theorem analyze_insufficient_data (now : String) (pd : List PriceData)
    (fm : Option FinancialMetrics) (aty : AssetType) :
    (pd.length < 2 →
      performQuantitativeAnalysis now pd fm aty =
        Except.error "Insufficient data for quantitative analysis") ∧
    (2 ≤ pd.length →
      performQuantitativeAnalysis now pd fm aty =
        Except.ok (quantAnalysisBody now pd fm aty)) := by
  constructor
  · intro h
    simp [performQuantitativeAnalysis, if_pos h]
  · intro h
    simp [performQuantitativeAnalysis, Nat.not_lt.mpr h]

/-- Closed witness for C3 at a concrete empty history and a concrete
two-sample history. -/
theorem analyze_insufficient_data_witness :
    (([] : List PriceData).length < 2 ∧
      performQuantitativeAnalysis "" [] none AssetType.stock =
        Except.error "Insufficient data for quantitative analysis") ∧
    (2 ≤ ([{ date := "", price := 100 }, { date := "", price := 101 }] :
        List PriceData).length ∧
      performQuantitativeAnalysis ""
          [{ date := "", price := 100 }, { date := "", price := 101 }] none AssetType.stock =
        Except.ok (quantAnalysisBody ""
          [{ date := "", price := 100 }, { date := "", price := 101 }] none AssetType.stock)) :=
  ⟨⟨by decide,
    (analyze_insufficient_data "" [] none AssetType.stock).1 (by decide)⟩,
   ⟨by decide,
    (analyze_insufficient_data ""
      [{ date := "", price := 100 }, { date := "", price := 101 }] none AssetType.stock).2
      (by decide)⟩⟩

/-- C6: for every history shorter than 50 samples, calculateIndicators
returns the neutral defaults, with the moving averages and all three
Bollinger bands collapsed to the last available price (zero when empty). -/
theorem indicators_short_history_defaults (hist : List PricePoint)
    (h : hist.length < 50) :
    (calculateIndicators hist).rsi = 50 ∧
    (calculateIndicators hist).adx = 25 ∧
    (calculateIndicators hist).trend = Trend.neutral ∧
    (calculateIndicators hist).recommendation = Recommendation.hold ∧
    (calculateIndicators hist).confidence = 0 ∧
    (calculateIndicators hist).sma20 = ((hist.getLast?).map PricePoint.price).getD 0 ∧
    (calculateIndicators hist).sma50 = ((hist.getLast?).map PricePoint.price).getD 0 ∧
    (calculateIndicators hist).sma200 = ((hist.getLast?).map PricePoint.price).getD 0 ∧
    (calculateIndicators hist).bollinger.upper = ((hist.getLast?).map PricePoint.price).getD 0 ∧
    (calculateIndicators hist).bollinger.middle = ((hist.getLast?).map PricePoint.price).getD 0 ∧
    (calculateIndicators hist).bollinger.lower = ((hist.getLast?).map PricePoint.price).getD 0 := by
  simp only [calculateIndicators, if_pos h]
  cases hgl : hist.getLast? <;> simp [hgl]

/-- Closed witness for C6 at the empty history. -/
theorem indicators_short_history_defaults_witness :
    ([] : List PricePoint).length < 50 ∧
    (calculateIndicators []).rsi = 50 ∧
    (calculateIndicators []).adx = 25 ∧
    (calculateIndicators []).trend = Trend.neutral ∧
    (calculateIndicators []).recommendation = Recommendation.hold ∧
    (calculateIndicators []).confidence = 0 ∧
    (calculateIndicators []).sma20 = ((([] : List PricePoint).getLast?).map PricePoint.price).getD 0 ∧
    (calculateIndicators []).sma50 = ((([] : List PricePoint).getLast?).map PricePoint.price).getD 0 ∧
    (calculateIndicators []).sma200 = ((([] : List PricePoint).getLast?).map PricePoint.price).getD 0 ∧
    (calculateIndicators []).bollinger.upper =
      ((([] : List PricePoint).getLast?).map PricePoint.price).getD 0 ∧
    (calculateIndicators []).bollinger.middle =
      ((([] : List PricePoint).getLast?).map PricePoint.price).getD 0 ∧
    (calculateIndicators []).bollinger.lower =
      ((([] : List PricePoint).getLast?).map PricePoint.price).getD 0 :=
  ⟨by decide, indicators_short_history_defaults [] (by decide)⟩

theorem rsiSeed_nonneg (gl : ℝ × ℝ) (c : ℝ) (h1 : 0 ≤ gl.1) (h2 : 0 ≤ gl.2) :
    0 ≤ (rsiSeed gl c).1 ∧ 0 ≤ (rsiSeed gl c).2 := by
  by_cases hc : 0 < c <;> simp only [rsiSeed, hc, if_true, if_false]
  · exact ⟨by linarith, h2⟩
  · exact ⟨h1, add_nonneg h2 (abs_nonneg c)⟩

theorem rsiStep_nonneg (period : ℕ) (hp : 1 ≤ period) (gl : ℝ × ℝ) (c : ℝ)
    (h1 : 0 ≤ gl.1) (h2 : 0 ≤ gl.2) :
    0 ≤ (rsiStep period gl c).1 ∧ 0 ≤ (rsiStep period gl c).2 := by
  have hp0 : (0 : ℝ) ≤ (period : ℝ) := Nat.cast_nonneg period
  have hp1 : (0 : ℝ) ≤ (period : ℝ) - 1 := by
    have h : (1 : ℝ) ≤ (period : ℝ) := by exact_mod_cast hp
    linarith
  by_cases hc : 0 < c <;> simp only [rsiStep, hc, if_true, if_false]
  · constructor
    · apply div_nonneg _ hp0
      have h := mul_nonneg h1 hp1
      linarith
    · exact div_nonneg (mul_nonneg h2 hp1) hp0
  · constructor
    · exact div_nonneg (mul_nonneg h1 hp1) hp0
    · apply div_nonneg _ hp0
      have ha := mul_nonneg h2 hp1
      have hb := abs_nonneg c
      linarith

theorem foldl_rsiSeed_nonneg (cs : List ℝ) (gl : ℝ × ℝ) (h1 : 0 ≤ gl.1) (h2 : 0 ≤ gl.2) :
    0 ≤ (cs.foldl rsiSeed gl).1 ∧ 0 ≤ (cs.foldl rsiSeed gl).2 := by
  induction cs generalizing gl with
  | nil => exact ⟨h1, h2⟩
  | cons c rest ih =>
      rw [List.foldl_cons]
      obtain ⟨a, b⟩ := rsiSeed_nonneg gl c h1 h2
      exact ih _ a b

theorem foldl_rsiStep_nonneg (period : ℕ) (hp : 1 ≤ period) (cs : List ℝ) (gl : ℝ × ℝ)
    (h1 : 0 ≤ gl.1) (h2 : 0 ≤ gl.2) :
    0 ≤ (cs.foldl (rsiStep period) gl).1 ∧ 0 ≤ (cs.foldl (rsiStep period) gl).2 := by
  induction cs generalizing gl with
  | nil => exact ⟨h1, h2⟩
  | cons c rest ih =>
      rw [List.foldl_cons]
      obtain ⟨a, b⟩ := rsiStep_nonneg period hp gl c h1 h2
      exact ih _ a b

theorem rsi_formula_bounds (g l : ℝ) (hg : 0 ≤ g) (hl : 0 ≤ l) :
    0 ≤ (if l = 0 then (100 : ℝ) else 100 - 100 / (1 + g / l)) ∧
    (if l = 0 then (100 : ℝ) else 100 - 100 / (1 + g / l)) ≤ 100 := by
  split
  · norm_num
  · have hrs : 0 ≤ g / l := div_nonneg hg hl
    have h1 : (0 : ℝ) < 1 + g / l := by linarith
    constructor
    · have h2 : 100 / (1 + g / l) ≤ 100 := by
        apply div_le_self (by norm_num)
        linarith
      linarith
    · have h3 : 0 < 100 / (1 + g / l) := by positivity
      linarith

theorem rsi_bounds_aux (prices : List ℝ) :
    0 ≤ calculateRSI prices 14 ∧ calculateRSI prices 14 ≤ 100 := by
  by_cases h : prices.length < 14 + 1
  · rw [calculateRSI, if_pos h]
    norm_num
  · simp only [calculateRSI, if_neg h]
    have hseed := foldl_rsiSeed_nonneg ((jsChanges prices).take 14) (0, 0) le_rfl le_rfl
    have hinit1 : 0 ≤ (((jsChanges prices).take 14).foldl rsiSeed (0, 0)).1 / ((14 : ℕ) : ℝ) :=
      div_nonneg hseed.1 (by norm_num)
    have hinit2 : 0 ≤ (((jsChanges prices).take 14).foldl rsiSeed (0, 0)).2 / ((14 : ℕ) : ℝ) :=
      div_nonneg hseed.2 (by norm_num)
    have hfin := foldl_rsiStep_nonneg 14 (by norm_num) ((jsChanges prices).drop 14)
      ((((jsChanges prices).take 14).foldl rsiSeed (0, 0)).1 / ((14 : ℕ) : ℝ),
       (((jsChanges prices).take 14).foldl rsiSeed (0, 0)).2 / ((14 : ℕ) : ℝ)) hinit1 hinit2
    exact rsi_formula_bounds _ _ hfin.1 hfin.2

theorem clamp_unit_bounds (x : ℝ) : 0 ≤ min (max x 0) 100 ∧ min (max x 0) 100 ≤ 100 :=
  ⟨le_min (le_max_right x 0) (by norm_num), min_le_right _ _⟩

theorem adx_bounds_aux (highs lows closes : List ℝ) :
    0 ≤ calculateADX highs lows closes 14 ∧ calculateADX highs lows closes 14 ≤ 100 := by
  rw [calculateADX]
  split
  · norm_num
  · dsimp only
    split
    · norm_num
    · split
      · norm_num
      · split
        · norm_num
        · exact clamp_unit_bounds _

theorem jsAdd_nan_left (a : JsNum) : jsAdd JsNum.nan a = JsNum.nan := by
  cases a <;> rfl

theorem jsAdd_nan_right (a : JsNum) : jsAdd a JsNum.nan = JsNum.nan := by
  cases a <;> rfl

theorem jsCube_nan : jsCube JsNum.nan = JsNum.nan := rfl

theorem jsScale_nan (a : ℝ) : jsScale a JsNum.nan = JsNum.nan := rfl

theorem jsDiv_zero_zero : jsDiv 0 0 = JsNum.nan := by
  simp [jsDiv]

theorem jsMax_num (a b : ℝ) : jsMax (JsNum.num a) (JsNum.num b) = JsNum.num (max a b) := rfl

theorem jsMax_nan_right (a : JsNum) : jsMax a JsNum.nan = JsNum.nan := by
  cases a <;> rfl

theorem jsMin_num (a b : ℝ) : jsMin (JsNum.num a) (JsNum.num b) = JsNum.num (min a b) := rfl

theorem jsMin_nan_right (a : JsNum) : jsMin a JsNum.nan = JsNum.nan := by
  cases a <;> rfl

theorem jsAdd_num (a b : ℝ) : jsAdd (JsNum.num a) (JsNum.num b) = JsNum.num (a + b) := rfl

theorem jsScale_num (a b : ℝ) : jsScale a (JsNum.num b) = JsNum.num (a * b) := rfl

theorem jsDiv_of_ne (a b : ℝ) (hb : b ≠ 0) : jsDiv a b = JsNum.num (a / b) := if_neg hb

theorem drawdown_fold_js (l : List ℝ) :
    ∀ (i n : ℕ) (sR : DrawdownState) (sJ : DrawdownStateJS),
    0 < sJ.peak → sJ.peak = sR.peak → sJ.peakIndex = sR.peakIndex →
    sJ.currentDrawdownStart = sR.currentDrawdownStart →
    sJ.maxDrawdown = JsNum.num sR.maxDrawdown →
    sJ.currentDrawdown = JsNum.num sR.currentDrawdown →
    ((List.enumFrom i l).foldl (drawdownStepJS n) sJ).maxDrawdown =
      JsNum.num (((List.enumFrom i l).foldl (drawdownStep n) sR).maxDrawdown) ∧
    ((List.enumFrom i l).foldl (drawdownStepJS n) sJ).currentDrawdown =
      JsNum.num (((List.enumFrom i l).foldl (drawdownStep n) sR).currentDrawdown) := by
  induction l with
  | nil =>
      intro i n sR sJ _ _ _ _ hmax hcur
      exact ⟨hmax, hcur⟩
  | cons a rest ih =>
      intro i n sR sJ hpk hpeak hpidx hstart hmax hcur
      simp only [List.enumFrom, List.foldl_cons]
      by_cases hlt : sR.peak < a
      · have hltJ : sJ.peak < a := by
          rw [hpeak]
          exact hlt
        refine ih (i + 1) n (drawdownStep n sR (i, a)) (drawdownStepJS n sJ (i, a))
          ?_ ?_ ?_ ?_ ?_ ?_
        · simp only [drawdownStepJS, if_pos hltJ]
          exact lt_trans hpk hltJ
        · simp [drawdownStepJS, drawdownStep, hltJ, hlt]
        · simp [drawdownStepJS, drawdownStep, hltJ, hlt]
        · simp [drawdownStepJS, drawdownStep, hltJ, hlt, hstart]
        · simp [drawdownStepJS, drawdownStep, hltJ, hlt, hmax]
        · simp [drawdownStepJS, drawdownStep, hltJ, hlt, hcur]
      · have hltJ : ¬sJ.peak < a := by
          rw [hpeak]
          exact hlt
        have hdd : jsDiv (sJ.peak - a) sJ.peak = JsNum.num ((sR.peak - a) / sR.peak) := by
          rw [jsDiv_of_ne _ _ (ne_of_gt hpk), hpeak]
        refine ih (i + 1) n (drawdownStep n sR (i, a)) (drawdownStepJS n sJ (i, a))
          ?_ ?_ ?_ ?_ ?_ ?_
        · simp only [drawdownStepJS, if_neg hltJ]
          exact hpk
        · simp [drawdownStepJS, drawdownStep, hltJ, hlt, hpeak]
        · simp [drawdownStepJS, drawdownStep, hltJ, hlt, hpidx]
        · simp [drawdownStepJS, drawdownStep, hltJ, hlt, hstart, hpidx]
        · simp [drawdownStepJS, drawdownStep, hltJ, hlt, hdd, hmax, jsMax_num]
        · simp only [drawdownStepJS, drawdownStep, if_neg hltJ, if_neg hlt]
          rw [hdd, hcur]
          split <;> rfl

theorem calculateMaxDrawdownJS_eq (prices : List ℝ) (hpos : 0 < prices.headD 0) :
    (calculateMaxDrawdownJS prices).1 = JsNum.num (calculateMaxDrawdown prices).maxDrawdown ∧
    (calculateMaxDrawdownJS prices).2 =
      JsNum.num (calculateMaxDrawdown prices).currentDrawdown := by
  by_cases h : prices.length < 2
  · rw [calculateMaxDrawdownJS, if_pos h, calculateMaxDrawdown, if_pos h]
    exact ⟨rfl, rfl⟩
  · rw [calculateMaxDrawdownJS, if_neg h, calculateMaxDrawdown, if_neg h]
    exact drawdown_fold_js (prices.drop 1) 1 (prices.length - 1)
      { maxDrawdown := 0, maxDrawdownDuration := 0, peak := prices.headD 0, peakIndex := 0,
        currentDrawdown := 0, drawdowns := [], currentDrawdownStart := -1 }
      { maxDrawdown := JsNum.num 0, maxDrawdownDuration := 0, peak := prices.headD 0,
        peakIndex := 0, currentDrawdown := JsNum.num 0, drawdowns := [],
        currentDrawdownStart := -1 }
      hpos rfl rfl rfl rfl rfl

/-- C4 counterexample: the two-sample all-zero price history is accepted by
the entry point, yet the drawdown loop divides zero by the zero running
peak, Math.max propagates the NaN, and the clamped overall risk score of
the program is NaN — not a real number in [0, 100]. -/
theorem risk_score_nan_on_zero_prices :
    2 ≤ ([{ date := "", price := 0 }, { date := "", price := 0 }] : List PriceData).length ∧
    overallRiskScoreJS [{ date := "", price := 0 }, { date := "", price := 0 }] =
      JsNum.nan := by
  refine ⟨by decide, ?_⟩
  have hmap : ([{ date := "", price := 0 }, { date := "", price := 0 }] :
      List PriceData).map (fun d => d.price) = [(0 : ℝ), 0] := rfl
  have hdd : (calculateMaxDrawdownJS [(0 : ℝ), 0]).1 = JsNum.nan := by
    rw [calculateMaxDrawdownJS, if_neg (by norm_num)]
    rw [show ([(0 : ℝ), 0].drop 1) = [0] from rfl]
    rw [show List.enumFrom 1 [(0 : ℝ)] = [(1, 0)] from rfl]
    dsimp only
    rw [List.foldl_cons, List.foldl_nil]
    rw [drawdownStepJS, if_neg (by norm_num)]
    norm_num [jsDiv, jsMax_nan_right]
  rw [overallRiskScoreJS]
  simp only [hmap, hdd, jsScale_nan, jsAdd_nan_left, jsMax_nan_right, jsMin_nan_right]

/-- C4 amended: on every input the composite signal strength stays within
[-100, 100], the reported confidence within [20, 95], and the RSI and ADX
indicators within [0, 100]; the overall risk score stays within [0, 100] on
every accepted input whose first price is positive (the running peak then
stays positive, so the drawdown quotient is never 0/0), and on such inputs
the JavaScript computation of the field agrees with the real-number model.
The unconditional risk-score bound fails on the all-zero price history
above, where the program yields NaN. -/
theorem analysis_output_bounds (now : String) (pd : List PriceData)
    (fm : Option FinancialMetrics) (aty : AssetType)
    (prices highs lows closes : List ℝ) :
    (-100 ≤ (quantAnalysisBody now pd fm aty).tradingSignals.signalStrength ∧
      (quantAnalysisBody now pd fm aty).tradingSignals.signalStrength ≤ 100) ∧
    (20 ≤ (quantAnalysisBody now pd fm aty).tradingSignals.confidence ∧
      (quantAnalysisBody now pd fm aty).tradingSignals.confidence ≤ 95) ∧
    (0 < (pd.map (fun d => d.price)).headD 0 →
      overallRiskScoreJS pd =
        JsNum.num ((quantAnalysisBody now pd fm aty).riskMetrics.overallRiskScore) ∧
      0 ≤ (quantAnalysisBody now pd fm aty).riskMetrics.overallRiskScore ∧
      (quantAnalysisBody now pd fm aty).riskMetrics.overallRiskScore ≤ 100) ∧
    (0 ≤ calculateRSI prices 14 ∧ calculateRSI prices 14 ≤ 100) ∧
    (0 ≤ calculateADX highs lows closes 14 ∧ calculateADX highs lows closes 14 ≤ 100) := by
  refine ⟨⟨le_max_left _ _, max_le (by norm_num) (min_le_left _ _)⟩,
    ⟨le_min (by norm_num) (le_max_left _ _), min_le_left _ _⟩, ?_,
    rsi_bounds_aux prices, adx_bounds_aux highs lows closes⟩
  intro hpos
  have hdd := calculateMaxDrawdownJS_eq (pd.map (fun d => d.price)) hpos
  have hrisk : (quantAnalysisBody now pd fm aty).riskMetrics.overallRiskScore =
      min 100 (max 0
        ((calculateMaxDrawdown (pd.map (fun d => d.price))).maxDrawdown * 50 +
          calculateVolatility (calculateReturns (pd.map (fun d => d.price))) true * 20 +
          calculateVaR (calculateReturns (pd.map (fun d => d.price))) 0.95 * 30)) := rfl
  refine ⟨?_, le_min (by norm_num) (le_max_left _ _), min_le_left _ _⟩
  rw [overallRiskScoreJS]
  simp only [hdd.1, jsScale_num, jsAdd_num, jsMax_num, jsMin_num]
  rw [hrisk]
  congr 3
  ring

/-- Closed witness for the amended C4 at a concrete positive-price history
and concrete indicator inputs. -/
theorem analysis_output_bounds_witness :
    (0 : ℝ) < (([{ date := "", price := 100 }, { date := "", price := 101 }] :
      List PriceData).map (fun d => d.price)).headD 0 ∧
    (-100 ≤ (quantAnalysisBody "" [{ date := "", price := 100 }, { date := "", price := 101 }]
        none AssetType.stock).tradingSignals.signalStrength ∧
      (quantAnalysisBody "" [{ date := "", price := 100 }, { date := "", price := 101 }]
        none AssetType.stock).tradingSignals.signalStrength ≤ 100) ∧
    (20 ≤ (quantAnalysisBody "" [{ date := "", price := 100 }, { date := "", price := 101 }]
        none AssetType.stock).tradingSignals.confidence ∧
      (quantAnalysisBody "" [{ date := "", price := 100 }, { date := "", price := 101 }]
        none AssetType.stock).tradingSignals.confidence ≤ 95) ∧
    (overallRiskScoreJS [{ date := "", price := 100 }, { date := "", price := 101 }] =
      JsNum.num ((quantAnalysisBody "" [{ date := "", price := 100 },
        { date := "", price := 101 }] none AssetType.stock).riskMetrics.overallRiskScore) ∧
      0 ≤ (quantAnalysisBody "" [{ date := "", price := 100 }, { date := "", price := 101 }]
        none AssetType.stock).riskMetrics.overallRiskScore ∧
      (quantAnalysisBody "" [{ date := "", price := 100 }, { date := "", price := 101 }]
        none AssetType.stock).riskMetrics.overallRiskScore ≤ 100) ∧
    (0 ≤ calculateRSI [] 14 ∧ calculateRSI [] 14 ≤ 100) ∧
    (0 ≤ calculateADX [] [] [] 14 ∧ calculateADX [] [] [] 14 ≤ 100) := by
  have hpos : (0 : ℝ) < (([{ date := "", price := 100 }, { date := "", price := 101 }] :
      List PriceData).map (fun d => d.price)).headD 0 := by norm_num
  have h := analysis_output_bounds "" [{ date := "", price := 100 },
    { date := "", price := 101 }] none AssetType.stock [] [] [] []
  exact ⟨hpos, h.1, h.2.1, h.2.2.1 hpos, h.2.2.2.1, h.2.2.2.2⟩

/-- C2: the stdDev = 0 guard that the specification requires is missing from
calculateSkewness; on the constant series [1, 1, 1] (length 3, standard
deviation 0) the source computes 0/0 = NaN, which propagates to a NaN
result instead of the promised 0, while the length guard itself does return
0 on short input. -/
theorem skewness_missing_stddev_guard :
    calculateSkewnessJS [1, 1, 1] = JsNum.nan ∧ calculateSkewnessJS [5] = JsNum.num 0 := by
  have hm : (calculateDescriptiveStats [1, 1, 1]).mean = 1 := by
    simp [calculateDescriptiveStats]
    norm_num
  have hsd : (calculateDescriptiveStats [1, 1, 1]).stdDev = 0 := by
    simp [calculateDescriptiveStats]
    norm_num [hm]
  constructor
  · rw [calculateSkewnessJS, if_neg (by norm_num)]
    simp only [hm, hsd]
    norm_num [List.foldl_cons, List.foldl_nil, jsDiv_zero_zero, jsCube_nan,
      jsAdd_nan_left, jsAdd_nan_right, jsScale_nan]
  · rw [calculateSkewnessJS, if_pos (by norm_num)]

theorem getD_zero_pair (i : ℕ) : ([(0 : ℝ), 0]).getD i 0 = 0 := by
  match i with
  | 0 => rfl
  | 1 => rfl
  | n + 2 =>
      apply List.getD_eq_default
      simp

theorem var_zero_pair (c : ℝ) : calculateVaR [(0 : ℝ), 0] c = 0 := by
  rw [calculateVaR, if_neg (by norm_num)]
  have hs : jsSortAsc [(0 : ℝ), 0] = [0, 0] :=
    List.Sorted.insertionSort_eq (by simp [List.sorted_cons])
  simp only [hs]
  split
  · rw [getD_zero_pair]
    simp
  · simp

/-- C10: the constant 3-sample price history is accepted by the analysis
(length at least 2), makes both VaR result fields zero, and therefore makes
the unguarded tailRatio field var99 / var95 the JavaScript quotient 0/0,
which is NaN rather than a finite number. -/
theorem tail_ratio_nan_on_constant_prices :
    2 ≤ ([{ date := "", price := 100 }, { date := "", price := 100 },
      { date := "", price := 100 }] : List PriceData).length ∧
    (quantAnalysisBody "" [{ date := "", price := 100 }, { date := "", price := 100 },
      { date := "", price := 100 }] none AssetType.stock).riskMetrics.var95 = 0 ∧
    (quantAnalysisBody "" [{ date := "", price := 100 }, { date := "", price := 100 },
      { date := "", price := 100 }] none AssetType.stock).riskMetrics.var99 = 0 ∧
    tailRatioJS [{ date := "", price := 100 }, { date := "", price := 100 },
      { date := "", price := 100 }] = JsNum.nan := by
  have hmap : ([{ date := "", price := 100 }, { date := "", price := 100 },
      { date := "", price := 100 }] : List PriceData).map (fun d => d.price) =
      [(100 : ℝ), 100, 100] := rfl
  have hret : calculateReturns [(100 : ℝ), 100, 100] = [0, 0] := by
    norm_num [calculateReturns]
  have h95 : (quantAnalysisBody "" [{ date := "", price := 100 }, { date := "", price := 100 },
      { date := "", price := 100 }] none AssetType.stock).riskMetrics.var95 =
      calculateVaR (calculateReturns (([{ date := "", price := 100 },
        { date := "", price := 100 }, { date := "", price := 100 }] :
        List PriceData).map (fun d => d.price))) 0.95 := rfl
  have h99 : (quantAnalysisBody "" [{ date := "", price := 100 }, { date := "", price := 100 },
      { date := "", price := 100 }] none AssetType.stock).riskMetrics.var99 =
      calculateVaR (calculateReturns (([{ date := "", price := 100 },
        { date := "", price := 100 }, { date := "", price := 100 }] :
        List PriceData).map (fun d => d.price))) 0.99 := rfl
  refine ⟨by decide, ?_, ?_, ?_⟩
  · rw [h95, hmap, hret]
    exact var_zero_pair 0.95
  · rw [h99, hmap, hret]
    exact var_zero_pair 0.99
  · rw [tailRatioJS]
    simp only [hmap, hret, var_zero_pair, jsDiv_zero_zero]

theorem sorted_take_le (l : List ℝ) (h : List.Sorted (fun a b : ℝ => a ≤ b) l) :
    ∀ k : ℕ, k < l.length → ∀ x ∈ l.take (k + 1), x ≤ l.getD k 0 := by
  induction l with
  | nil =>
      intro k hk
      simp at hk
  | cons a rest ih =>
      intro k hk x hx
      match k with
      | 0 =>
          simp only [List.take_succ_cons, List.take_zero, List.mem_singleton] at hx
          subst hx
          simp
      | k + 1 =>
          rw [List.take_succ_cons] at hx
          rw [List.getD_cons_succ]
          rcases List.mem_cons.mp hx with hxa | hxt
          · subst hxa
            have hklt : k < rest.length := by
              simpa using Nat.lt_of_succ_lt_succ hk
            rw [List.getD_eq_getElem _ _ hklt]
            exact List.rel_of_sorted_cons h _ (List.getElem_mem hklt)
          · exact ih (List.sorted_cons.mp h).2 k (by simpa using Nat.lt_of_succ_lt_succ hk) x hxt

/-- C1 amended: for a return series of at least 10 samples whose sorted
value at the VaR index is non-positive (a left tail made of losses, the
intended situation), CVaR at 95% is at least VaR at 95%.  The original
unconditional claim fails on all-positive return series. -/
theorem cvar_ge_var_of_nonpos_tail (returns : List ℝ) (h10 : 10 ≤ returns.length)
    (hneg : (jsSortAsc returns).getD (⌊(1 - 0.95) * (returns.length : ℝ)⌋).toNat 0 ≤ 0) :
    calculateVaR returns 0.95 ≤ calculateCVaR returns 0.95 := by
  have hn0 : ¬returns.length = 0 := by omega
  have hnpos : (0 : ℝ) < (returns.length : ℝ) := by
    exact_mod_cast Nat.pos_of_ne_zero hn0
  have hfl0 : (0 : ℤ) ≤ ⌊(1 - (0.95 : ℝ)) * (returns.length : ℝ)⌋ := by
    apply Int.floor_nonneg.mpr
    rw [show (1 - (0.95 : ℝ)) = 1 / 20 by norm_num]
    positivity
  have hfllt : ⌊(1 - (0.95 : ℝ)) * (returns.length : ℝ)⌋ < (returns.length : ℤ) := by
    apply Int.floor_lt.mpr
    rw [show (1 - (0.95 : ℝ)) = 1 / 20 by norm_num]
    push_cast
    linarith
  have hkn : (⌊(1 - (0.95 : ℝ)) * (returns.length : ℝ)⌋).toNat < returns.length := by omega
  have hslen : (jsSortAsc returns).length = returns.length :=
    (List.perm_insertionSort _ returns).length_eq
  have hsorted : List.Sorted (fun a b : ℝ => a ≤ b) (jsSortAsc returns) :=
    List.sorted_insertionSort _ returns
  have hVaR : calculateVaR returns 0.95 =
      |(jsSortAsc returns).getD (⌊(1 - 0.95) * (returns.length : ℝ)⌋).toNat 0| := by
    simp only [calculateVaR, hn0, if_false]
    rw [if_pos ⟨hfl0, by rw [hslen]; exact hfllt⟩]
  have hend : jsSliceEndIndex (jsSortAsc returns).length
      (⌊(1 - 0.95) * (returns.length : ℝ)⌋ + 1) =
      (⌊(1 - 0.95) * (returns.length : ℝ)⌋).toNat + 1 := by
    rw [jsSliceEndIndex, if_neg (by omega), hslen]
    omega
  have hlen_take : ((jsSortAsc returns).take
      ((⌊(1 - 0.95) * (returns.length : ℝ)⌋).toNat + 1)).length =
      (⌊(1 - 0.95) * (returns.length : ℝ)⌋).toNat + 1 := by
    rw [List.length_take, hslen]
    omega
  have hCVaR : calculateCVaR returns 0.95 =
      |((jsSortAsc returns).take ((⌊(1 - 0.95) * (returns.length : ℝ)⌋).toNat + 1)).sum /
        ((((jsSortAsc returns).take
          ((⌊(1 - 0.95) * (returns.length : ℝ)⌋).toNat + 1)).length : ℕ) : ℝ)| := by
    simp only [calculateCVaR, hn0, if_false, hend]
    rw [if_pos (by rw [hlen_take]; omega)]
  have hmem : ∀ x ∈ (jsSortAsc returns).take
      ((⌊(1 - 0.95) * (returns.length : ℝ)⌋).toNat + 1),
      x ≤ (jsSortAsc returns).getD (⌊(1 - 0.95) * (returns.length : ℝ)⌋).toNat 0 :=
    sorted_take_le _ hsorted _ (by rw [hslen]; exact hkn)
  have hsum := List.sum_le_card_nsmul _ _ hmem
  rw [hlen_take] at hsum
  have hmean : ((jsSortAsc returns).take
      ((⌊(1 - 0.95) * (returns.length : ℝ)⌋).toNat + 1)).sum /
      ((((jsSortAsc returns).take
        ((⌊(1 - 0.95) * (returns.length : ℝ)⌋).toNat + 1)).length : ℕ) : ℝ) ≤
      (jsSortAsc returns).getD (⌊(1 - 0.95) * (returns.length : ℝ)⌋).toNat 0 := by
    rw [hlen_take]
    rw [div_le_iff₀ (by positivity)]
    rw [nsmul_eq_mul] at hsum
    push_cast at hsum ⊢
    linarith
  have hmean_nonpos : ((jsSortAsc returns).take
      ((⌊(1 - 0.95) * (returns.length : ℝ)⌋).toNat + 1)).sum /
      ((((jsSortAsc returns).take
        ((⌊(1 - 0.95) * (returns.length : ℝ)⌋).toNat + 1)).length : ℕ) : ℝ) ≤ 0 :=
    le_trans hmean hneg
  rw [hVaR, hCVaR, abs_of_nonpos hneg, abs_of_nonpos hmean_nonpos]
  linarith [hmean]

/-- Closed witness for the amended C1 at the constant loss series of twenty
samples of -1, where VaR and CVaR both equal 1. -/
theorem cvar_ge_var_of_nonpos_tail_witness :
    10 ≤ (List.replicate 20 (-1 : ℝ)).length ∧
    (jsSortAsc (List.replicate 20 (-1 : ℝ))).getD
      (⌊(1 - 0.95) * ((List.replicate 20 (-1 : ℝ)).length : ℝ)⌋).toNat 0 ≤ 0 ∧
    calculateVaR (List.replicate 20 (-1 : ℝ)) 0.95 ≤
      calculateCVaR (List.replicate 20 (-1 : ℝ)) 0.95 := by
  have h1 : 10 ≤ (List.replicate 20 (-1 : ℝ)).length := by simp
  have hs : jsSortAsc (List.replicate 20 (-1 : ℝ)) = List.replicate 20 (-1 : ℝ) :=
    List.Sorted.insertionSort_eq (sorted_le_replicate 20 (-1))
  have hall : ∀ i : ℕ, (List.replicate 20 (-1 : ℝ)).getD i 0 ≤ 0 := by
    intro i
    by_cases hi : i < 20
    · rw [List.getD_eq_getElem _ _ (by simpa using hi), List.getElem_replicate]
      norm_num
    · rw [List.getD_eq_default _ _ (by simpa using Nat.not_lt.mp hi)]
  have h2 : (jsSortAsc (List.replicate 20 (-1 : ℝ))).getD
      (⌊(1 - 0.95) * ((List.replicate 20 (-1 : ℝ)).length : ℝ)⌋).toNat 0 ≤ 0 := by
    rw [hs]
    exact hall _
  exact ⟨h1, h2, cvar_ge_var_of_nonpos_tail _ h1 h2⟩

/-- C1 counterexample: on the all-positive ascending return series
1 followed by nineteen 2s (20 samples, at least 10), the VaR index is 1, so
VaR is 2 while CVaR is the mean 3/2 of the two smallest returns: CVaR is
strictly below VaR, refuting the unconditional claim. -/
theorem cvar_lt_var_on_positive_returns :
    10 ≤ ((1 : ℝ) :: List.replicate 19 2).length ∧
    calculateCVaR ((1 : ℝ) :: List.replicate 19 2) 0.95 <
      calculateVaR ((1 : ℝ) :: List.replicate 19 2) 0.95 := by
  constructor
  · simp
  · have hsorted : List.Sorted (fun a b : ℝ => a ≤ b) ((1 : ℝ) :: List.replicate 19 2) := by
      refine List.sorted_cons.mpr ⟨?_, sorted_le_replicate 19 2⟩
      intro b hb
      rw [List.eq_of_mem_replicate hb]
      norm_num
    have hs : jsSortAsc ((1 : ℝ) :: List.replicate 19 2) = (1 : ℝ) :: List.replicate 19 2 :=
      List.Sorted.insertionSort_eq hsorted
    have hlen : ((1 : ℝ) :: List.replicate 19 2).length = 20 := by simp
    have hfl : ⌊(1 - (0.95 : ℝ)) * ((20 : ℕ) : ℝ)⌋ = 1 := by
      rw [show (1 - (0.95 : ℝ)) * ((20 : ℕ) : ℝ) = 1 by push_cast; norm_num]
      exact Int.floor_one
    have htail : ((1 : ℝ) :: List.replicate 19 2).take 2 = [1, 2] := by
      rw [show (19 : ℕ) = 18 + 1 by norm_num, List.replicate_succ]
      rfl
    have hget : ((1 : ℝ) :: List.replicate 19 2).getD 1 0 = 2 := by
      rw [show (19 : ℕ) = 18 + 1 by norm_num, List.replicate_succ]
      rfl
    have hVaR : calculateVaR ((1 : ℝ) :: List.replicate 19 2) 0.95 = 2 := by
      rw [calculateVaR, if_neg (by simp)]
      simp only [hs, hlen, hfl]
      rw [if_pos (by norm_num)]
      norm_num [hget]
    have hCVaR : calculateCVaR ((1 : ℝ) :: List.replicate 19 2) 0.95 = 3 / 2 := by
      rw [calculateCVaR, if_neg (by simp)]
      simp only [hs, hlen, hfl]
      rw [show jsSliceEndIndex 20 (1 + 1) = 2 by decide]
      rw [htail]
      rw [if_pos (by norm_num)]
      norm_num
    rw [hVaR, hCVaR]
    norm_num

theorem drawdown_fold_ascending (l : List ℝ) :
    ∀ (i n : ℕ) (s : DrawdownState), s.maxDrawdown = 0 → s.currentDrawdown = 0 →
    s.currentDrawdownStart = -1 → List.Chain (fun a b : ℝ => a < b) s.peak l →
    ((List.enumFrom i l).foldl (drawdownStep n) s).maxDrawdown = 0 ∧
    ((List.enumFrom i l).foldl (drawdownStep n) s).currentDrawdown = 0 := by
  induction l with
  | nil =>
      intro i n s hmax hcur hstart _
      exact ⟨hmax, hcur⟩
  | cons a l ih =>
      intro i n s hmax hcur hstart hchain
      rw [List.chain_cons] at hchain
      simp only [List.enumFrom, List.foldl_cons]
      refine ih (i + 1) n (drawdownStep n s (i, a)) ?_ ?_ ?_ ?_
      · simp [drawdownStep, hchain.1, hmax]
      · simp [drawdownStep, hchain.1, hcur]
      · simp [drawdownStep, hchain.1, hstart]
      · have hpk : (drawdownStep n s (i, a)).peak = a := by
          simp [drawdownStep, hchain.1]
        rw [hpk]
        exact hchain.2

theorem drawdown_fold_current (l : List ℝ) :
    ∀ (i n : ℕ) (s : DrawdownState), l ≠ [] → n = i + l.length - 1 →
    s.currentDrawdown = 0 →
    ((List.enumFrom i l).foldl (drawdownStep n) s).currentDrawdown =
      (if List.foldl max s.peak l.dropLast < l.getLastD 0 then 0
       else (List.foldl max s.peak l.dropLast - l.getLastD 0) /
         List.foldl max s.peak l.dropLast) := by
  induction l with
  | nil =>
      intro i n s hne
      exact absurd rfl hne
  | cons a l ih =>
      intro i n s _ hn hcur
      simp only [List.enumFrom, List.foldl_cons]
      cases l with
      | nil =>
          have hni : n = i := by
            simp at hn
            omega
          subst hni
          by_cases hpk : s.peak < a
          · simp [drawdownStep, hpk, hcur, List.getLastD]
          · simp [drawdownStep, hpk, List.getLastD, if_neg hpk]
      | cons b m =>
          have hlt : i < n := by
            simp at hn
            omega
          have hn2 : n = (i + 1) + (b :: m).length - 1 := by
            simp at hn ⊢
            omega
          by_cases hpk : s.peak < a
          · have hrec := ih (i + 1) n (drawdownStep n s (i, a)) (by simp) hn2
              (by simp [drawdownStep, hpk, hcur])
            rw [hrec]
            have hpk2 : (drawdownStep n s (i, a)).peak = a := by
              simp [drawdownStep, hpk]
            rw [hpk2]
            have hfold : List.foldl max s.peak ((a :: b :: m).dropLast) =
                List.foldl max a ((b :: m).dropLast) := by
              rw [List.dropLast_cons₂, List.foldl_cons, max_eq_right (le_of_lt hpk)]
            rw [hfold]
            rfl
          · have hrec := ih (i + 1) n (drawdownStep n s (i, a)) (by simp) hn2
              (by simp [drawdownStep, hpk, Nat.ne_of_lt hlt, hcur])
            rw [hrec]
            have hpk2 : (drawdownStep n s (i, a)).peak = s.peak := by
              simp [drawdownStep, hpk]
            rw [hpk2]
            have hfold : List.foldl max s.peak ((a :: b :: m).dropLast) =
                List.foldl max s.peak ((b :: m).dropLast) := by
              rw [List.dropLast_cons₂, List.foldl_cons,
                max_eq_left (le_of_not_lt hpk)]
            rw [hfold]
            rfl

/-- C7: on a strictly ascending price series both the maximum and the current
drawdown are zero; and in general (at least 2 prices) the current drawdown is
the drawdown (peak - last) / peak of the final observation against the
running peak over the earlier prices, zero when the series ends at a new
running high. -/
theorem drawdown_invariants (prices : List ℝ) :
    (List.Chain' (fun a b : ℝ => a < b) prices →
      (calculateMaxDrawdown prices).maxDrawdown = 0 ∧
      (calculateMaxDrawdown prices).currentDrawdown = 0) ∧
    (2 ≤ prices.length →
      (calculateMaxDrawdown prices).currentDrawdown =
        (if List.foldl max (prices.headD 0) prices.dropLast < prices.getLastD 0 then 0
         else (List.foldl max (prices.headD 0) prices.dropLast - prices.getLastD 0) /
           List.foldl max (prices.headD 0) prices.dropLast)) := by
  constructor
  · intro hasc
    by_cases hlen : prices.length < 2
    · rw [calculateMaxDrawdown, if_pos hlen]
      exact ⟨rfl, rfl⟩
    · rcases prices with _ | ⟨p, _ | ⟨q, rest⟩⟩
      · exact absurd (by norm_num) hlen
      · exact absurd (by norm_num) hlen
      · rw [calculateMaxDrawdown, if_neg hlen]
        exact drawdown_fold_ascending (q :: rest) 1 ((p :: q :: rest).length - 1)
          { maxDrawdown := 0, maxDrawdownDuration := 0, peak := p, peakIndex := 0,
            currentDrawdown := 0, drawdowns := [], currentDrawdownStart := -1 }
          rfl rfl rfl hasc
  · intro hlen
    rcases prices with _ | ⟨p, _ | ⟨q, rest⟩⟩
    · simp at hlen
    · simp at hlen
    · have hnl : ¬(p :: q :: rest).length < 2 := by simp
      rw [calculateMaxDrawdown, if_neg hnl]
      have hrec := drawdown_fold_current (q :: rest) 1 ((p :: q :: rest).length - 1)
        { maxDrawdown := 0, maxDrawdownDuration := 0, peak := p, peakIndex := 0,
          currentDrawdown := 0, drawdowns := [], currentDrawdownStart := -1 }
        (by simp) (by simp) rfl
      have hfold : List.foldl max (((p :: q :: rest).headD 0)) ((p :: q :: rest).dropLast) =
          List.foldl max p ((q :: rest).dropLast) := by
        rw [List.dropLast_cons₂]
        simp only [List.headD, List.foldl_cons, max_self]
      have hlast : (p :: q :: rest).getLastD 0 = (q :: rest).getLastD 0 := by
        simp [List.getLastD_eq_getLast?]
      rw [hfold, hlast]
      exact hrec

/-- Closed witness for C7 at the ascending series [1, 2, 3]. -/
theorem drawdown_invariants_witness :
    (List.Chain' (fun a b : ℝ => a < b) [1, 2, 3] ∧
      (calculateMaxDrawdown [1, 2, 3]).maxDrawdown = 0 ∧
      (calculateMaxDrawdown [1, 2, 3]).currentDrawdown = 0) ∧
    (2 ≤ ([1, 2, 3] : List ℝ).length ∧
      (calculateMaxDrawdown [(1 : ℝ), 2, 3]).currentDrawdown =
        (if List.foldl max (([(1 : ℝ), 2, 3]).headD 0) ([(1 : ℝ), 2, 3]).dropLast <
            ([(1 : ℝ), 2, 3]).getLastD 0 then 0
         else (List.foldl max (([(1 : ℝ), 2, 3]).headD 0) ([(1 : ℝ), 2, 3]).dropLast -
            ([(1 : ℝ), 2, 3]).getLastD 0) /
           List.foldl max (([(1 : ℝ), 2, 3]).headD 0) ([(1 : ℝ), 2, 3]).dropLast)) := by
  have hasc : List.Chain' (fun a b : ℝ => a < b) [1, 2, 3] := by
    norm_num [List.chain'_cons]
  exact ⟨⟨hasc, (drawdown_invariants [1, 2, 3]).1 hasc⟩,
    ⟨by norm_num, (drawdown_invariants [(1 : ℝ), 2, 3]).2 (by norm_num)⟩⟩

theorem scale_pos_iff (k : ℝ) (hk : 0 < k) (c : ℝ) : 0 < k * c ↔ 0 < c := by
  constructor
  · intro h
    by_contra hc
    push_neg at hc
    nlinarith
  · intro h
    positivity

theorem scale_eq_zero_iff (k : ℝ) (hk : 0 < k) (c : ℝ) : k * c = 0 ↔ c = 0 := by
  simp [mul_eq_zero, ne_of_gt hk]

theorem scale_abs (k : ℝ) (hk : 0 < k) (c : ℝ) : |k * c| = k * |c| := by
  rw [abs_mul, abs_of_pos hk]

theorem getLastD_map_scale (k : ℝ) : ∀ (l : List ℝ) (d : ℝ),
    (l.map (fun x => k * x)).getLastD (k * d) = k * l.getLastD d
  | [], _ => rfl
  | a :: l, d => by
      simp only [List.map_cons, List.getLastD_cons]
      exact getLastD_map_scale k l a

theorem lastOrZero_scale (k : ℝ) (l : List ℝ) :
    lastOrZero (l.map (fun x => k * x)) = k * lastOrZero l := by
  have h := getLastD_map_scale k l 0
  rw [mul_zero] at h
  simpa [lastOrZero] using h

theorem sum_map_scale (k : ℝ) (l : List ℝ) : (l.map (fun x => k * x)).sum = k * l.sum := by
  induction l with
  | nil => simp
  | cons a l ih =>
      simp [ih]
      ring

theorem foldl_max_map_scale (k : ℝ) (hk : 0 < k) (l : List ℝ) :
    ∀ a : ℝ, (l.map (fun x => k * x)).foldl max (k * a) = k * l.foldl max a := by
  induction l with
  | nil =>
      intro a
      simp
  | cons b m ih =>
      intro a
      simp only [List.map_cons, List.foldl_cons]
      rw [← mul_max_of_nonneg _ _ (le_of_lt hk)]
      exact ih (max a b)

theorem foldl_min_map_scale (k : ℝ) (hk : 0 < k) (l : List ℝ) :
    ∀ a : ℝ, (l.map (fun x => k * x)).foldl min (k * a) = k * l.foldl min a := by
  induction l with
  | nil =>
      intro a
      simp
  | cons b m ih =>
      intro a
      simp only [List.map_cons, List.foldl_cons]
      rw [← mul_min_of_nonneg _ _ (le_of_lt hk)]
      exact ih (min a b)

theorem headD_map_scale (k : ℝ) (l : List ℝ) :
    (l.map (fun x => k * x)).headD (k * 0) = k * l.headD 0 := by
  cases l <;> simp

theorem jsMaxList_scale (k : ℝ) (hk : 0 < k) (l : List ℝ) :
    jsMaxList (l.map (fun x => k * x)) = k * jsMaxList l := by
  rw [jsMaxList, jsMaxList, show (l.map (fun x => k * x)).headD 0 =
    (l.map (fun x => k * x)).headD (k * 0) by rw [mul_zero], headD_map_scale,
    foldl_max_map_scale k hk]

theorem jsMinList_scale (k : ℝ) (hk : 0 < k) (l : List ℝ) :
    jsMinList (l.map (fun x => k * x)) = k * jsMinList l := by
  rw [jsMinList, jsMinList, show (l.map (fun x => k * x)).headD 0 =
    (l.map (fun x => k * x)).headD (k * 0) by rw [mul_zero], headD_map_scale,
    foldl_min_map_scale k hk]

theorem jsChanges_scale (k : ℝ) : ∀ l : List ℝ,
    jsChanges (l.map (fun x => k * x)) = (jsChanges l).map (fun x => k * x)
  | [] => rfl
  | [_] => rfl
  | a :: b :: rest => by
      simp only [List.map_cons, jsChanges]
      rw [show jsChanges (k * b :: rest.map (fun x => k * x)) =
        jsChanges ((b :: rest).map (fun x => k * x)) by rw [List.map_cons]]
      rw [jsChanges_scale k (b :: rest)]
      congr 1
      ring

theorem rsiSeed_scale (k : ℝ) (hk : 0 < k) (g l c : ℝ) :
    rsiSeed (k * g, k * l) (k * c) = (k * (rsiSeed (g, l) c).1, k * (rsiSeed (g, l) c).2) := by
  by_cases hc : 0 < c
  · rw [rsiSeed, if_pos ((scale_pos_iff k hk c).mpr hc), rsiSeed, if_pos hc]
    simp only
    rw [mul_add]
  · rw [rsiSeed, if_neg (fun h => hc ((scale_pos_iff k hk c).mp h)), rsiSeed, if_neg hc]
    simp only
    rw [scale_abs k hk c, mul_add]

theorem rsiStep_scale (k : ℝ) (hk : 0 < k) (period : ℕ) (g l c : ℝ) :
    rsiStep period (k * g, k * l) (k * c) =
      (k * (rsiStep period (g, l) c).1, k * (rsiStep period (g, l) c).2) := by
  by_cases hc : 0 < c
  · rw [rsiStep, if_pos ((scale_pos_iff k hk c).mpr hc), rsiStep, if_pos hc]
    simp only [Prod.mk.injEq]
    constructor <;> ring
  · rw [rsiStep, if_neg (fun h => hc ((scale_pos_iff k hk c).mp h)), rsiStep, if_neg hc]
    simp only [Prod.mk.injEq, scale_abs k hk c]
    constructor <;> ring

theorem foldl_rsiSeed_scale (k : ℝ) (hk : 0 < k) (cs : List ℝ) :
    ∀ g l : ℝ, (cs.map (fun x => k * x)).foldl rsiSeed (k * g, k * l) =
      (k * (cs.foldl rsiSeed (g, l)).1, k * (cs.foldl rsiSeed (g, l)).2) := by
  induction cs with
  | nil =>
      intro g l
      rfl
  | cons c rest ih =>
      intro g l
      simp only [List.map_cons, List.foldl_cons]
      rw [rsiSeed_scale k hk g l c]
      have hp : (rsiSeed (g, l) c) = ((rsiSeed (g, l) c).1, (rsiSeed (g, l) c).2) := rfl
      rw [show (List.foldl rsiSeed (rsiSeed (g, l) c) rest) =
        (List.foldl rsiSeed ((rsiSeed (g, l) c).1, (rsiSeed (g, l) c).2) rest) by rw [← hp]]
      exact ih (rsiSeed (g, l) c).1 (rsiSeed (g, l) c).2

theorem foldl_rsiStep_scale (k : ℝ) (hk : 0 < k) (period : ℕ) (cs : List ℝ) :
    ∀ g l : ℝ, (cs.map (fun x => k * x)).foldl (rsiStep period) (k * g, k * l) =
      (k * (cs.foldl (rsiStep period) (g, l)).1, k * (cs.foldl (rsiStep period) (g, l)).2) := by
  induction cs with
  | nil =>
      intro g l
      rfl
  | cons c rest ih =>
      intro g l
      simp only [List.map_cons, List.foldl_cons]
      rw [rsiStep_scale k hk period g l c]
      have hp : (rsiStep period (g, l) c) =
          ((rsiStep period (g, l) c).1, (rsiStep period (g, l) c).2) := rfl
      rw [show (List.foldl (rsiStep period) (rsiStep period (g, l) c) rest) =
        (List.foldl (rsiStep period) ((rsiStep period (g, l) c).1,
          (rsiStep period (g, l) c).2) rest) by rw [← hp]]
      exact ih (rsiStep period (g, l) c).1 (rsiStep period (g, l) c).2

theorem calculateRSI_scale (k : ℝ) (hk : 0 < k) (prices : List ℝ) (period : ℕ) :
    calculateRSI (prices.map (fun x => k * x)) period = calculateRSI prices period := by
  by_cases h : prices.length < period + 1
  · rw [calculateRSI, if_pos (by simpa using h), calculateRSI, if_pos h]
  · rw [calculateRSI, if_neg (by simpa using h), calculateRSI, if_neg h]
    simp only [jsChanges_scale, ← List.map_take, ← List.map_drop]
    have hseed := foldl_rsiSeed_scale k hk ((jsChanges prices).take period) 0 0
    simp only [mul_zero] at hseed
    rw [hseed]
    have hdiv : ((k * (((jsChanges prices).take period).foldl rsiSeed (0, 0)).1) / (period : ℝ),
        (k * (((jsChanges prices).take period).foldl rsiSeed (0, 0)).2) / (period : ℝ)) =
        (k * ((((jsChanges prices).take period).foldl rsiSeed (0, 0)).1 / (period : ℝ)),
         k * ((((jsChanges prices).take period).foldl rsiSeed (0, 0)).2 / (period : ℝ))) := by
      rw [mul_div_assoc, mul_div_assoc]
    rw [hdiv]
    rw [foldl_rsiStep_scale k hk period ((jsChanges prices).drop period)]
    have hz := scale_eq_zero_iff k hk
      (((jsChanges prices).drop period).foldl (rsiStep period)
        ((((jsChanges prices).take period).foldl rsiSeed (0, 0)).1 / (period : ℝ),
         (((jsChanges prices).take period).foldl rsiSeed (0, 0)).2 / (period : ℝ))).2
    by_cases h2 : (((jsChanges prices).drop period).foldl (rsiStep period)
        ((((jsChanges prices).take period).foldl rsiSeed (0, 0)).1 / (period : ℝ),
         (((jsChanges prices).take period).foldl rsiSeed (0, 0)).2 / (period : ℝ))).2 = 0
    · rw [if_pos (hz.mpr h2), if_pos h2]
    · rw [if_neg (fun hx => h2 (hz.mp hx)), if_neg h2]
      rw [mul_div_mul_left _ _ (ne_of_gt hk)]

theorem calculateSMA_scale (k : ℝ) (hk : 0 < k) (prices : List ℝ) (period : ℕ) :
    calculateSMA (prices.map (fun x => k * x)) period = k * calculateSMA prices period := by
  by_cases h : prices.length < period
  · rw [calculateSMA, if_pos (by simpa using h), calculateSMA, if_pos h]
    exact lastOrZero_scale k prices
  · rw [calculateSMA, if_neg (by simpa using h), calculateSMA, if_neg h]
    simp only [List.length_map, ← List.map_drop, sum_map_scale]
    rw [mul_div_assoc]

theorem calculateEMA_scale (k : ℝ) (hk : 0 < k) (prices : List ℝ) (period : ℕ) :
    calculateEMA (prices.map (fun x => k * x)) period = k * calculateEMA prices period := by
  by_cases h : prices.length < period
  · rw [calculateEMA, if_pos (by simpa using h), calculateEMA, if_pos h]
    exact lastOrZero_scale k prices
  · rw [calculateEMA, if_neg (by simpa using h), calculateEMA, if_neg h]
    simp only [← List.map_take, ← List.map_drop, sum_map_scale]
    rw [mul_div_assoc]
    have hfold : ∀ (l : List ℝ) (e : ℝ),
        (l.map (fun x => k * x)).foldl
          (fun ema p => (p - ema) * (2 / ((period : ℝ) + 1)) + ema) (k * e) =
        k * l.foldl (fun ema p => (p - ema) * (2 / ((period : ℝ) + 1)) + ema) e := by
      intro l
      induction l with
      | nil =>
          intro e
          rfl
      | cons b m ih =>
          intro e
          simp only [List.map_cons, List.foldl_cons]
          rw [show (k * b - k * e) * (2 / ((period : ℝ) + 1)) + k * e =
            k * ((b - e) * (2 / ((period : ℝ) + 1)) + e) by ring]
          exact ih _
    exact hfold _ _

theorem scale_ratio (k a b c d : ℝ) (hk : k ≠ 0) :
    (k * a - k * b) / (k * c - k * d) = (a - b) / (c - d) := by
  rw [show k * a - k * b = k * (a - b) by ring, show k * c - k * d = k * (c - d) by ring,
    mul_div_mul_left _ _ hk]

theorem ite_scale (k : ℝ) (c : Prop) [Decidable c] (x : ℝ) :
    (if c then k * x else 0) = k * (if c then x else 0) := by
  split <;> simp

theorem getD_map_scale (k : ℝ) (l : List ℝ) (i : ℕ) :
    (l.map (fun x => k * x)).getD i 0 = k * l.getD i 0 := by
  by_cases h : i < l.length
  · rw [List.getD_eq_getElem _ _ (by simpa using h), List.getD_eq_getElem _ _ h,
      List.getElem_map]
  · rw [List.getD_eq_default _ _ (by simpa using Nat.not_lt.mp h),
      List.getD_eq_default _ _ (Nat.not_lt.mp h), mul_zero]

theorem calculateBollingerBands_scale (k : ℝ) (hk : 0 < k) (prices : List ℝ)
    (period : ℕ) (mult : ℝ) :
    (calculateBollingerBands (prices.map (fun x => k * x)) period mult).upper =
      k * (calculateBollingerBands prices period mult).upper ∧
    (calculateBollingerBands (prices.map (fun x => k * x)) period mult).middle =
      k * (calculateBollingerBands prices period mult).middle ∧
    (calculateBollingerBands (prices.map (fun x => k * x)) period mult).lower =
      k * (calculateBollingerBands prices period mult).lower := by
  by_cases h : prices.length < period
  · rw [calculateBollingerBands, calculateBollingerBands, if_pos (by simpa using h), if_pos h]
    exact ⟨lastOrZero_scale k prices, lastOrZero_scale k prices, lastOrZero_scale k prices⟩
  · rw [calculateBollingerBands, calculateBollingerBands, if_neg (by simpa using h), if_neg h]
    have hsma := calculateSMA_scale k hk prices period
    have hvar : ((prices.map (fun x => k * x)).drop
          ((prices.map (fun x => k * x)).length - period)).map
          (fun price => (price - calculateSMA (prices.map (fun x => k * x)) period) ^ 2) =
        ((prices.drop (prices.length - period)).map
          (fun price => (price - calculateSMA prices period) ^ 2)).map
          (fun x => k ^ 2 * x) := by
      rw [List.length_map, ← List.map_drop, hsma, List.map_map, List.map_map]
      congr 1
      funext p
      simp only [Function.comp]
      ring
    have hsqrt : Real.sqrt ((((prices.map (fun x => k * x)).drop
          ((prices.map (fun x => k * x)).length - period)).map
          (fun price => (price - calculateSMA (prices.map (fun x => k * x)) period) ^ 2)).sum /
          (period : ℝ)) =
        k * Real.sqrt (((prices.drop (prices.length - period)).map
          (fun price => (price - calculateSMA prices period) ^ 2)).sum / (period : ℝ)) := by
      rw [hvar, sum_map_scale, mul_div_assoc, Real.sqrt_mul (sq_nonneg k),
        Real.sqrt_sq (le_of_lt hk)]
    refine ⟨?_, ?_, ?_⟩ <;> dsimp only
    · rw [hsqrt, hsma]
      ring
    · rw [hsma]
    · rw [hsqrt, hsma]
      ring

theorem calculateMACD_scale (k : ℝ) (hk : 0 < k) (prices : List ℝ) :
    (calculateMACD (prices.map (fun x => k * x))).value = k * (calculateMACD prices).value ∧
    (calculateMACD (prices.map (fun x => k * x))).signal = k * (calculateMACD prices).signal ∧
    (calculateMACD (prices.map (fun x => k * x))).histogram =
      k * (calculateMACD prices).histogram := by
  have hsig9 : ∀ x : ℝ, calculateEMA [x] 9 = x := fun x => ema_singleton x 9 (by norm_num)
  have hsig : ∀ l : List ℝ, (calculateMACD l).signal = (calculateMACD l).value := by
    intro l
    show calculateEMA [calculateEMA l 12 - calculateEMA l 26] 9 =
      calculateEMA l 12 - calculateEMA l 26
    exact hsig9 _
  have hval : (calculateMACD (prices.map (fun x => k * x))).value =
      k * (calculateMACD prices).value := by
    show calculateEMA (prices.map (fun x => k * x)) 12 -
        calculateEMA (prices.map (fun x => k * x)) 26 =
      k * (calculateEMA prices 12 - calculateEMA prices 26)
    rw [calculateEMA_scale k hk prices 12, calculateEMA_scale k hk prices 26]
    ring
  have hhist : ∀ l : List ℝ, (calculateMACD l).histogram =
      (calculateMACD l).value - (calculateMACD l).signal := fun _ => rfl
  refine ⟨hval, ?_, ?_⟩
  · rw [hsig, hsig, hval]
  · rw [hhist, hhist, hsig, hsig, hval]
    ring

theorem stochasticKAt_scale (k : ℝ) (hk : 0 < k) (highs lows closes : List ℝ)
    (kPeriod i : ℕ) :
    stochasticKAt (highs.map (fun x => k * x)) (lows.map (fun x => k * x))
        (closes.map (fun x => k * x)) kPeriod i =
      stochasticKAt highs lows closes kPeriod i := by
  rw [stochasticKAt, stochasticKAt]
  simp only [← List.map_take, ← List.map_drop]
  rw [jsMaxList_scale k hk, jsMinList_scale k hk]
  by_cases hc : jsMaxList ((highs.take (i + 1)).drop (i + 1 - kPeriod)) =
      jsMinList ((lows.take (i + 1)).drop (i + 1 - kPeriod))
  · rw [if_pos (by rw [hc]), if_pos hc]
  · rw [if_neg (fun hx => hc (mul_left_cancel₀ (ne_of_gt hk) hx)), if_neg hc]
    rw [lastOrZero_scale, scale_ratio _ _ _ _ _ (ne_of_gt hk)]

theorem calculateStochastic_scale (k : ℝ) (hk : 0 < k) (highs lows closes : List ℝ)
    (kPeriod dPeriod : ℕ) :
    calculateStochastic (highs.map (fun x => k * x)) (lows.map (fun x => k * x))
        (closes.map (fun x => k * x)) kPeriod dPeriod =
      calculateStochastic highs lows closes kPeriod dPeriod := by
  by_cases h : closes.length < kPeriod
  · rw [calculateStochastic, if_pos (by simpa using h), calculateStochastic, if_pos h]
  · rw [calculateStochastic, if_neg (by simpa using h), calculateStochastic, if_neg h]
    simp only [List.length_map, ← List.map_drop]
    rw [jsMaxList_scale k hk, jsMinList_scale k hk, lastOrZero_scale]
    have hfun : stochasticKAt (highs.map (fun x => k * x)) (lows.map (fun x => k * x))
        (closes.map (fun x => k * x)) kPeriod =
        stochasticKAt highs lows closes kPeriod := by
      funext i
      exact stochasticKAt_scale k hk highs lows closes kPeriod i
    rw [hfun]
    by_cases hc : jsMaxList (highs.drop (highs.length - kPeriod)) =
        jsMinList (lows.drop (lows.length - kPeriod))
    · rw [if_pos (by rw [hc]), if_pos hc]
    · rw [if_neg (fun hx => hc (mul_left_cancel₀ (ne_of_gt hk) hx)), if_neg hc]
      rw [scale_ratio _ _ _ _ _ (ne_of_gt hk)]

theorem adxRow_scale (k : ℝ) (hk : 0 < k) (highs lows closes : List ℝ) (i : ℕ) :
    adxRow (highs.map (fun x => k * x)) (lows.map (fun x => k * x))
        (closes.map (fun x => k * x)) i =
      { tr := k * (adxRow highs lows closes i).tr
        plusDM := k * (adxRow highs lows closes i).plusDM
        minusDM := k * (adxRow highs lows closes i).minusDM } := by
  have e1 : ∀ x y : ℝ, k * x - k * y = k * (x - y) := fun x y => by ring
  simp only [adxRow, getD_map_scale, e1, scale_abs k hk,
    ← mul_max_of_nonneg _ _ (le_of_lt hk), mul_lt_mul_left hk, ite_scale]

theorem calculateADX_scale (k : ℝ) (hk : 0 < k) (highs lows closes : List ℝ) (period : ℕ) :
    calculateADX (highs.map (fun x => k * x)) (lows.map (fun x => k * x))
        (closes.map (fun x => k * x)) period = calculateADX highs lows closes period := by
  by_cases h1 : highs.length < period * 2 ∨ lows.length < period * 2 ∨
      closes.length < period * 2
  · rw [calculateADX, if_pos (by simpa using h1), calculateADX, if_pos h1]
  · rw [calculateADX, if_neg (by simpa using h1), calculateADX, if_neg h1]
    simp only [List.length_map]
    have hrows : (List.range' 1 (closes.length - 1)).map
        (adxRow (highs.map (fun x => k * x)) (lows.map (fun x => k * x))
          (closes.map (fun x => k * x))) =
        ((List.range' 1 (closes.length - 1)).map (adxRow highs lows closes)).map
          (fun r => ({ tr := k * r.tr, plusDM := k * r.plusDM, minusDM := k * r.minusDM } : ADXRow)) := by
      rw [List.map_map]
      congr 1
      funext i
      simp only [Function.comp]
      exact adxRow_scale k hk highs lows closes i
    rw [hrows]
    have htr : (((List.range' 1 (closes.length - 1)).map (adxRow highs lows closes)).map
        (fun r => ({ tr := k * r.tr, plusDM := k * r.plusDM, minusDM := k * r.minusDM } : ADXRow))).map (fun r => r.tr) =
        (((List.range' 1 (closes.length - 1)).map (adxRow highs lows closes)).map
          (fun r => r.tr)).map (fun x => k * x) := by
      simp only [List.map_map]
      rfl
    have hplus : (((List.range' 1 (closes.length - 1)).map (adxRow highs lows closes)).map
        (fun r => ({ tr := k * r.tr, plusDM := k * r.plusDM, minusDM := k * r.minusDM } : ADXRow))).map (fun r => r.plusDM) =
        (((List.range' 1 (closes.length - 1)).map (adxRow highs lows closes)).map
          (fun r => r.plusDM)).map (fun x => k * x) := by
      simp only [List.map_map]
      rfl
    have hminus : (((List.range' 1 (closes.length - 1)).map (adxRow highs lows closes)).map
        (fun r => ({ tr := k * r.tr, plusDM := k * r.plusDM, minusDM := k * r.minusDM } : ADXRow))).map (fun r => r.minusDM) =
        (((List.range' 1 (closes.length - 1)).map (adxRow highs lows closes)).map
          (fun r => r.minusDM)).map (fun x => k * x) := by
      simp only [List.map_map]
      rfl
    rw [htr, hplus, hminus]
    simp only [List.length_map, ← List.map_drop, sum_map_scale, mul_div_assoc]
    by_cases h2 : (List.range' 1 (closes.length - 1)).length < period
    · rw [if_pos h2, if_pos h2]
    · rw [if_neg h2, if_neg h2]
      have e1 : ∀ x y : ℝ, k * x - k * y = k * (x - y) := fun x y => by ring
      have e2 : ∀ x y : ℝ, k * x + k * y = k * (x + y) := fun x y => by ring
      have hkne : k ≠ 0 := ne_of_gt hk
      simp only [e1, e2, scale_eq_zero_iff k hk, scale_abs k hk,
        mul_div_mul_left _ _ hkne]

theorem scale_neg_iff (k : ℝ) (hk : 0 < k) (c : ℝ) : k * c < 0 ↔ c < 0 := by
  constructor
  · intro h
    by_contra hc
    push_neg at hc
    nlinarith
  · intro h
    exact mul_neg_of_pos_of_neg hk h

theorem pickHigh_scale (k : ℝ) (hk : 0 < k) (d : PricePoint) :
    pickHigh (scalePoint k d) = k * pickHigh d := by
  cases hd : d.high with
  | none => simp [pickHigh, scalePoint, hd]
  | some h =>
      by_cases h0 : h = 0
      · simp [pickHigh, scalePoint, hd, h0]
      · have hne : k * h ≠ 0 := fun hx => h0 ((scale_eq_zero_iff k hk h).mp hx)
        simp [pickHigh, scalePoint, hd, h0, hne]

theorem pickLow_scale (k : ℝ) (hk : 0 < k) (d : PricePoint) :
    pickLow (scalePoint k d) = k * pickLow d := by
  cases hd : d.low with
  | none => simp [pickLow, scalePoint, hd]
  | some h =>
      by_cases h0 : h = 0
      · simp [pickLow, scalePoint, hd, h0]
      · have hne : k * h ≠ 0 := fun hx => h0 ((scale_eq_zero_iff k hk h).mp hx)
        simp [pickLow, scalePoint, hd, h0, hne]

theorem head_bind_high_scale (k : ℝ) (hist : List PricePoint) :
    ((hist.map (scalePoint k)).head?.bind PricePoint.high).isSome =
      (hist.head?.bind PricePoint.high).isSome := by
  cases hist with
  | nil => rfl
  | cons d rest =>
      cases d.high <;> simp [scalePoint, PricePoint.high]

theorem head_bind_low_scale (k : ℝ) (hist : List PricePoint) :
    ((hist.map (scalePoint k)).head?.bind PricePoint.low).isSome =
      (hist.head?.bind PricePoint.low).isSome := by
  cases hist with
  | nil => rfl
  | cons d rest =>
      cases d.low <;> simp [scalePoint, PricePoint.low]

theorem getLast?_map_scalePoint (k : ℝ) : ∀ l : List PricePoint,
    (l.map (scalePoint k)).getLast? = l.getLast?.map (scalePoint k)
  | [] => rfl
  | [_] => rfl
  | a :: b :: rest => by
      rw [List.map_cons, List.map_cons, List.getLast?_cons_cons,
        show (scalePoint k b :: rest.map (scalePoint k)) = (b :: rest).map (scalePoint k)
          by rw [List.map_cons],
        getLast?_map_scalePoint k (b :: rest), List.getLast?_cons_cons]

theorem calculateIndicators_scale (k : ℝ) (hk : 0 < k) (hist : List PricePoint) :
    (calculateIndicators (hist.map (scalePoint k))).trend =
      (calculateIndicators hist).trend ∧
    (calculateIndicators (hist.map (scalePoint k))).recommendation =
      (calculateIndicators hist).recommendation ∧
    (calculateIndicators (hist.map (scalePoint k))).confidence =
      (calculateIndicators hist).confidence ∧
    (calculateIndicators (hist.map (scalePoint k))).rsi = (calculateIndicators hist).rsi ∧
    (calculateIndicators (hist.map (scalePoint k))).adx = (calculateIndicators hist).adx ∧
    (calculateIndicators (hist.map (scalePoint k))).sma20 =
      k * (calculateIndicators hist).sma20 ∧
    (calculateIndicators (hist.map (scalePoint k))).sma50 =
      k * (calculateIndicators hist).sma50 ∧
    (calculateIndicators (hist.map (scalePoint k))).sma200 =
      k * (calculateIndicators hist).sma200 ∧
    (calculateIndicators (hist.map (scalePoint k))).bollinger.upper =
      k * (calculateIndicators hist).bollinger.upper ∧
    (calculateIndicators (hist.map (scalePoint k))).bollinger.middle =
      k * (calculateIndicators hist).bollinger.middle ∧
    (calculateIndicators (hist.map (scalePoint k))).bollinger.lower =
      k * (calculateIndicators hist).bollinger.lower := by
  have hmacd := calculateMACD_scale k hk (hist.map (fun d => d.price))
  have hboll := calculateBollingerBands_scale k hk (hist.map (fun d => d.price)) 20 2
  have hpr : (hist.map (scalePoint k)).map (fun d => d.price) =
      (hist.map (fun d => d.price)).map (fun x => k * x) := by
    simp only [List.map_map]
    rfl
  have hmapHigh : (hist.map (scalePoint k)).map pickHigh =
      (hist.map pickHigh).map (fun x => k * x) := by
    simp only [List.map_map]
    congr 1
    funext d
    simp only [Function.comp]
    exact pickHigh_scale k hk d
  have hmapLow : (hist.map (scalePoint k)).map pickLow =
      (hist.map pickLow).map (fun x => k * x) := by
    simp only [List.map_map]
    congr 1
    funext d
    simp only [Function.comp]
    exact pickLow_scale k hk d
  have hmap102 : ((hist.map (fun d => d.price)).map (fun x => k * x)).map
      (fun p => p * 1.02) =
      ((hist.map (fun d => d.price)).map (fun p => p * 1.02)).map (fun x => k * x) := by
    simp only [List.map_map]
    congr 1
    funext p
    simp only [Function.comp]
    ring
  have hmap098 : ((hist.map (fun d => d.price)).map (fun x => k * x)).map
      (fun p => p * 0.98) =
      ((hist.map (fun d => d.price)).map (fun p => p * 0.98)).map (fun x => k * x) := by
    simp only [List.map_map]
    congr 1
    funext p
    simp only [Function.comp]
    ring
  by_cases h : hist.length < 50
  · simp only [calculateIndicators, List.length_map, if_pos h]
    have hlast : (match (hist.map (scalePoint k)).getLast? with
        | some d => d.price
        | none => 0) = k * (match hist.getLast? with
        | some d => d.price
        | none => (0 : ℝ)) := by
      rw [getLast?_map_scalePoint k]
      cases hist.getLast? with
      | none => simp
      | some d => simp [scalePoint]
    refine ⟨?_, ?_, ?_, ?_, ?_, ?_, ?_, ?_, ?_, ?_, ?_⟩ <;>
      first | rfl | trivial | exact hlast
  · simp only [calculateIndicators, List.length_map, if_neg h]
    simp only [hpr, hmapHigh, hmapLow, hmap102, hmap098, head_bind_high_scale,
      ← apply_ite (List.map (fun x => k * x)), lastOrZero_scale,
      calculateRSI_scale k hk, calculateSMA_scale k hk,
      calculateStochastic_scale k hk, calculateADX_scale k hk,
      hmacd.1, hmacd.2.1, hmacd.2.2, hboll.1, hboll.2.1, hboll.2.2,
      head_bind_low_scale,
      mul_lt_mul_left hk, scale_pos_iff k hk, scale_neg_iff k hk]
    refine ⟨?_, ?_, ?_, ?_, ?_, ?_, ?_, ?_, ?_, ?_, ?_⟩ <;> first | rfl | trivial

/-- C8: multiplying every input price (and high/low) by a positive constant k
leaves RSI, ADX, and the trend and recommendation derived by
calculateIndicators unchanged, while the simple moving averages and all
Bollinger band values scale by exactly k. -/
theorem scale_invariance (k : ℝ) (hk : 0 < k) (prices highs lows : List ℝ)
    (hist : List PricePoint) (period : ℕ) (mult : ℝ) :
    calculateRSI (prices.map (fun x => k * x)) period = calculateRSI prices period ∧
    calculateADX (highs.map (fun x => k * x)) (lows.map (fun x => k * x))
        (prices.map (fun x => k * x)) period = calculateADX highs lows prices period ∧
    calculateSMA (prices.map (fun x => k * x)) period = k * calculateSMA prices period ∧
    (calculateBollingerBands (prices.map (fun x => k * x)) period mult).upper =
      k * (calculateBollingerBands prices period mult).upper ∧
    (calculateBollingerBands (prices.map (fun x => k * x)) period mult).middle =
      k * (calculateBollingerBands prices period mult).middle ∧
    (calculateBollingerBands (prices.map (fun x => k * x)) period mult).lower =
      k * (calculateBollingerBands prices period mult).lower ∧
    (calculateIndicators (hist.map (scalePoint k))).trend = (calculateIndicators hist).trend ∧
    (calculateIndicators (hist.map (scalePoint k))).recommendation =
      (calculateIndicators hist).recommendation ∧
    (calculateIndicators (hist.map (scalePoint k))).rsi = (calculateIndicators hist).rsi ∧
    (calculateIndicators (hist.map (scalePoint k))).adx = (calculateIndicators hist).adx ∧
    (calculateIndicators (hist.map (scalePoint k))).sma20 =
      k * (calculateIndicators hist).sma20 ∧
    (calculateIndicators (hist.map (scalePoint k))).sma50 =
      k * (calculateIndicators hist).sma50 ∧
    (calculateIndicators (hist.map (scalePoint k))).sma200 =
      k * (calculateIndicators hist).sma200 ∧
    (calculateIndicators (hist.map (scalePoint k))).bollinger.upper =
      k * (calculateIndicators hist).bollinger.upper ∧
    (calculateIndicators (hist.map (scalePoint k))).bollinger.middle =
      k * (calculateIndicators hist).bollinger.middle ∧
    (calculateIndicators (hist.map (scalePoint k))).bollinger.lower =
      k * (calculateIndicators hist).bollinger.lower := by
  obtain ⟨h1, h2, _, h4, h5, h6, h7, h8, h9, h10, h11⟩ := calculateIndicators_scale k hk hist
  obtain ⟨b1, b2, b3⟩ := calculateBollingerBands_scale k hk prices period mult
  exact ⟨calculateRSI_scale k hk prices period,
    calculateADX_scale k hk highs lows prices period,
    calculateSMA_scale k hk prices period, b1, b2, b3,
    h1, h2, h4, h5, h6, h7, h8, h9, h10, h11⟩

/-- Closed witness for C8 at k = 2 and empty histories. -/
theorem scale_invariance_witness :
    (0 : ℝ) < 2 ∧
    (calculateRSI (([] : List ℝ).map (fun x => (2 : ℝ) * x)) 14 = calculateRSI [] 14 ∧
     calculateADX (([] : List ℝ).map (fun x => (2 : ℝ) * x))
        (([] : List ℝ).map (fun x => (2 : ℝ) * x))
        (([] : List ℝ).map (fun x => (2 : ℝ) * x)) 14 = calculateADX [] [] [] 14 ∧
     calculateSMA (([] : List ℝ).map (fun x => (2 : ℝ) * x)) 14 = 2 * calculateSMA [] 14 ∧
     (calculateBollingerBands (([] : List ℝ).map (fun x => (2 : ℝ) * x)) 14 2).upper =
        2 * (calculateBollingerBands [] 14 2).upper ∧
     (calculateBollingerBands (([] : List ℝ).map (fun x => (2 : ℝ) * x)) 14 2).middle =
        2 * (calculateBollingerBands [] 14 2).middle ∧
     (calculateBollingerBands (([] : List ℝ).map (fun x => (2 : ℝ) * x)) 14 2).lower =
        2 * (calculateBollingerBands [] 14 2).lower ∧
     (calculateIndicators (([] : List PricePoint).map (scalePoint 2))).trend =
        (calculateIndicators []).trend ∧
     (calculateIndicators (([] : List PricePoint).map (scalePoint 2))).recommendation =
        (calculateIndicators []).recommendation ∧
     (calculateIndicators (([] : List PricePoint).map (scalePoint 2))).rsi =
        (calculateIndicators []).rsi ∧
     (calculateIndicators (([] : List PricePoint).map (scalePoint 2))).adx =
        (calculateIndicators []).adx ∧
     (calculateIndicators (([] : List PricePoint).map (scalePoint 2))).sma20 =
        2 * (calculateIndicators []).sma20 ∧
     (calculateIndicators (([] : List PricePoint).map (scalePoint 2))).sma50 =
        2 * (calculateIndicators []).sma50 ∧
     (calculateIndicators (([] : List PricePoint).map (scalePoint 2))).sma200 =
        2 * (calculateIndicators []).sma200 ∧
     (calculateIndicators (([] : List PricePoint).map (scalePoint 2))).bollinger.upper =
        2 * (calculateIndicators []).bollinger.upper ∧
     (calculateIndicators (([] : List PricePoint).map (scalePoint 2))).bollinger.middle =
        2 * (calculateIndicators []).bollinger.middle ∧
     (calculateIndicators (([] : List PricePoint).map (scalePoint 2))).bollinger.lower =
        2 * (calculateIndicators []).bollinger.lower) :=
  ⟨by norm_num, scale_invariance 2 (by norm_num) [] [] [] [] 14 2⟩

end AiosFund
